import Mathlib

/-!
Verification of the StayDirectly upstream-sync and image-ingestion pipeline
(`src/server/routes.ts`, `src/client/src/lib/hospitable/property-utils.ts`).

The TypeScript source is shallowly embedded: JavaScript strings are `String`
manipulated through explicit `List Char` scanners (so that the JS `includes`
/ `replace` / regex-replace semantics are captured exactly); JS numbers that
the pipeline actually computes with are integers and are embedded as `Int` /
`Nat`; absent (`undefined` / `null`) values are `Option`; JS truthiness on
strings (empty string is falsy) and on numbers (zero is falsy) is made
explicit in the `jsStrOr` / `jsNumOr` helpers.  The Express handlers become
pure functions from a request, an environment (upstream responses, token)
and a mutable-state snapshot (in-memory caches, rate-limit maps, catalog
store) to a response and a new state.

The Local Catalog Store (`server/storage.ts`, not part of the sources under
verification) is modelled from the spec, §6: `findById`, `findBySlug`,
pseudo-filter search (`platformId:<value>` / `external_id:<value>`),
`create` (assigns the next internal numeric id) and `update`.
-/

namespace StayDirectly

/-! ## JavaScript string primitives over `List Char` -/

/-- JS `String.prototype.includes` on char lists: does `pat` occur in `s`? -/
def includesL (pat : List Char) : List Char → Bool
  | [] => pat.isEmpty
  | c :: cs => pat.isPrefixOf (c :: cs) || includesL pat cs

/-- JS `String.prototype.replace` with a *string* pattern: replaces only the
first (leftmost) occurrence of `pat` by `rep`. -/
def replaceFirstL (pat rep : List Char) : List Char → List Char
  | [] => []
  | c :: cs =>
    if pat.isPrefixOf (c :: cs) then rep ++ (c :: cs).drop pat.length
    else c :: replaceFirstL pat rep cs

/-- One pass of JS `replace(/pat=[^&]+/, rep)` (no `g` flag): find the
leftmost position where the literal `pat` is followed by a non-empty run of
non-`&` characters, and replace the whole match by `rep`.  Returns `none`
when the regex does not match anywhere. -/
def replacePolicyL (pat rep : List Char) : List Char → Option (List Char)
  | [] => none
  | c :: cs =>
    if pat.isPrefixOf (c :: cs) then
      let rest := (c :: cs).drop pat.length
      let run := rest.takeWhile (· ≠ '&')
      if run.isEmpty then (replacePolicyL pat rep cs).map (c :: ·)
      else some (rep ++ rest.dropWhile (· ≠ '&'))
    else (replacePolicyL pat rep cs).map (c :: ·)

/-- JS `includes` on strings. -/
def strIncludes (s pat : String) : Bool := includesL pat.data s.data

/-- JS first-occurrence string replace on strings. -/
def strReplaceFirst (s pat rep : String) : String :=
  String.mk (replaceFirstL pat.data rep.data s.data)

/-- JS `s.replace(/aki_policy=[^&]+/, 'aki_policy=large')`-style regex
replace on strings, parameterised by the literal prefix of the pattern. -/
def strReplacePolicy (s pat rep : String) : String :=
  match replacePolicyL pat.data rep.data s.data with
  | some l => String.mk l
  | none => s

/-! ## The location-label string pipeline

`routes.ts` builds the location label as
`` `${city}, ${state}, ${country}`.replace(/, ,/g, ',').replace(/^, /, '').replace(/, $/, '') ``.
`collapseCommaPairs` is the global `/, ,/g` replace (left-to-right,
non-overlapping, the replacement is not rescanned), `stripLeadCommaSpace`
the anchored `/^, /` replace and `stripTrailCommaSpace` the anchored
`/, $/` replace. -/

/-- Global JS `replace(/, ,/g, ',')` over char lists: scan left to right,
replace each non-overlapping match, never rescanning a replacement. -/
def collapseCommaPairs : List Char → List Char
  | [] => []
  | [c] => [c]
  | [c, d] => [c, d]
  | c :: d :: e :: rest =>
    if c = ',' ∧ d = ' ' ∧ e = ',' then ',' :: collapseCommaPairs rest
    else c :: collapseCommaPairs (d :: e :: rest)

/-- JS `replace(/^, /, '')` over char lists. -/
def stripLeadCommaSpace (s : List Char) : List Char :=
  if [',', ' '].isPrefixOf s then s.drop 2 else s

/-- JS `replace(/, $/, '')` over char lists. -/
def stripTrailCommaSpace (s : List Char) : List Char :=
  if [',', ' '].isSuffixOf s then s.take (s.length - 2) else s

/-- The location label computed by both the import and the publish mapping
(`routes.ts`, the `location:` field of `propertyData`). -/
def locationLabel (city state country : String) : String :=
  String.mk (stripTrailCommaSpace (stripLeadCommaSpace (collapseCommaPairs
    (city.data ++ [',', ' '] ++ state.data ++ [',', ' '] ++ country.data))))

/-- Comma-join of a list of segments. -/
def joinCommaSpace : List String → String
  | [] => ""
  | [a] => a
  | a :: rest => a ++ ", " ++ joinCommaSpace rest

/-- The spec's wording of the same label: the comma-joined concatenation of
city, state, country with empty segments collapsed away. -/
def specLocationLabel (city state country : String) : String :=
  joinCommaSpace (([city, state, country]).filter (fun s => s ≠ ""))

/-! ## JS truthiness helpers -/

/-- JS `a || d` for an optional string `a`: `undefined`/`null` and the empty
string are falsy. -/
def jsStrOr (a : Option String) (d : String) : String :=
  match a with
  | some s => if s = "" then d else s
  | none => d

/-- JS `a || b` keeping the possibly-undefined result. -/
def jsStrOrOpt (a b : Option String) : Option String :=
  match a with
  | some s => if s = "" then b else some s
  | none => b

/-- JS `x ? Number(x) : d` (equivalently `Number(x) || d`) for an optional
integer payload: `undefined`/`null` and `0` are falsy. -/
def jsNumOr (a : Option Int) (d : Int) : Int :=
  match a with
  | some n => if n = 0 then d else n
  | none => d

/-- Decimal parse of a non-empty digit string. -/
def parseNatAux : List Char → Nat → Option Nat
  | [], acc => some acc
  | c :: cs, acc =>
    if '0' ≤ c ∧ c ≤ '9' then parseNatAux cs (acc * 10 + (c.toNat - 48)) else none

/-- JS `Number(s)` as used by `storage.getProperty(Number(prop.id))`:
an integer-literal string yields that integer, the empty string yields `0`,
anything else is `NaN` (embedded as `none`, on which every id lookup
misses).  Fractional, signed and exotic numeric literals do not occur in
the inputs considered here. -/
def jsNumber (s : String) : Option Nat :=
  match s.data with
  | [] => some 0
  | l => parseNatAux l 0

/-- `index`-carrying map, the shape of JS `arr.map((x, i) => ...)`. -/
def mapWithIndex (f : Nat → α → β) : Nat → List α → List β
  | _, [] => []
  | i, a :: as => f i a :: mapWithIndex f (i + 1) as

/-- JS `Date.now().toString().slice(-6)`: the last six characters of the
decimal representation of the current epoch-milliseconds value. -/
def last6 (now : Nat) : String :=
  let s := toString now
  s.drop (s.length - 6)

/-! ## Upstream data model (`UpstreamListing`, photos) -/

/-- A photo in an upstream listing's `photos` collection.  The publish
and the import mapping access `p.url` directly (it must be present),
captions are unused by this subsystem. -/
structure Photo where
  url : String
deriving Repr, DecidableEq

/-- The detailed `capacity` object of an upstream listing. -/
structure UpCapacity where
  max : Option Int := none
  beds : Option Int := none
  bedrooms : Option Int := none
  bathrooms : Option Int := none
deriving Repr, DecidableEq

/-- An upstream Hospitable listing as consumed by the import and publish
handlers (`routes.ts`).  Every field the handlers read is present;
`Option` marks fields the upstream may omit (`undefined`). -/
structure UpstreamListing where
  id : String
  private_name : Option String := none
  public_name : Option String := none
  description : Option String := none
  base_price : Option Int := none
  picture : Option String := none
  photos : Option (List Photo) := none
  address : Option String := none
  city : Option String := none
  state : Option String := none
  country : Option String := none
  latitude : Option Int := none
  longitude : Option Int := none
  bedrooms : Option Int := none
  bathrooms : Option Int := none
  beds : Option Int := none
  max_guests : Option Int := none
  capacity : Option UpCapacity := none
  amenities : Option (List String) := none
  property_type : Option String := none
  house_rules : Option String := none
  min_nights : Option Int := none
  max_nights : Option Int := none
deriving Repr, DecidableEq

/-- The structured capacity stored on a catalog property. -/
structure Capacity where
  max : Int
  beds : Int
  bedrooms : Int
  bathrooms : Int
deriving Repr, DecidableEq

/-- The full mapped object (`propertyData` in both the import-listings and
the mark-for-publishing handlers) handed to the Local Catalog Store.
`slug`, `isPublished` and `publishedAt` are set only where the source sets
them (`none` = the field is absent from the JS object literal).  The
constant float field `rating: 4.5` is not carried by this integer
embedding; no claim mentions it. -/
structure PropertyData where
  name : String
  title : String
  description : String
  price : Int
  imageUrl : String
  additionalImages : List String
  address : String
  city : String
  state : String
  country : String
  location : String
  latitude : Option Int
  longitude : Option Int
  bedrooms : Int
  bathrooms : Int
  maxGuests : Int
  capacity : Option Capacity
  amenities : List String
  hostId : Int := 1
  hostName : String := "Property Owner"
  reviewCount : Int := 0
  type : String
  isFeatured : Bool := true
  isActive : Bool := true
  isVerified : Bool := true
  isPublished : Option Bool := none
  publishedAt : Option Nat := none
  metaTitle : Option String
  metaDescription : String
  keywords : List String
  rules : String
  checkInTime : String := "15:00"
  checkOutTime : String := "11:00"
  minNights : Int
  maxNights : Int
  platformId : String
  platformType : String := "hospitable"
  externalId : String
  slug : Option String := none
deriving Repr, DecidableEq

/-- The part of `propertyData` both handlers build identically from a
listing (everything except publication state and the platform identifier,
which differ between the two routes). -/
def mapListingCore (prop : UpstreamListing) : PropertyData :=
  { name := jsStrOr prop.private_name (jsStrOr prop.public_name "Unnamed Property")
    title := jsStrOr prop.public_name (jsStrOr prop.private_name "Unnamed Property")
    description := jsStrOr prop.description "Beautiful property"
    price := jsNumOr prop.base_price 99
    imageUrl := strReplaceFirst
      (jsStrOr prop.picture (jsStrOr ((prop.photos.getD []).head?.map Photo.url) ""))
      "/im\\" "/"
    additionalImages :=
      match prop.photos with
      | some ps => (ps.drop 1).map (fun p => strReplaceFirst p.url "/im\\" "/")
      | none => []
    address := jsStrOr prop.address ""
    city := jsStrOr prop.city "Unknown"
    state := jsStrOr prop.state ""
    country := jsStrOr prop.country "Unknown"
    location := locationLabel (jsStrOr prop.city "") (jsStrOr prop.state "")
      (jsStrOr prop.country "")
    latitude := match prop.latitude with
      | some v => if v = 0 then none else some v
      | none => none
    longitude := match prop.longitude with
      | some v => if v = 0 then none else some v
      | none => none
    bedrooms := jsNumOr prop.bedrooms 1
    bathrooms := jsNumOr prop.bathrooms 1
    maxGuests := jsNumOr prop.max_guests 2
    capacity := match prop.capacity with
      | some cap => some
          { max := jsNumOr cap.max (jsNumOr prop.max_guests 2)
            beds := jsNumOr cap.beds (jsNumOr prop.beds 1)
            bedrooms := jsNumOr cap.bedrooms (jsNumOr prop.bedrooms 1)
            bathrooms := jsNumOr cap.bathrooms (jsNumOr prop.bathrooms 1) }
      | none => none
    amenities := prop.amenities.getD []
    type := jsStrOr prop.property_type "Apartment"
    metaTitle := jsStrOrOpt prop.public_name prop.private_name
    metaDescription := jsStrOr (prop.description.map (fun s => String.mk (s.data.take 160)))
      "Book this amazing property directly with the owner"
    keywords := ["vacation rental", "direct booking", jsStrOr prop.city "",
      jsStrOr prop.property_type ""]
    rules := jsStrOr prop.house_rules ""
    minNights := jsNumOr prop.min_nights 1
    maxNights := jsNumOr prop.max_nights 30
    platformId := prop.id
    externalId := prop.id }

/-- `propertyData` as built by the import-listings handler: platform id is
the bare upstream listing id, no publication fields. -/
def mapListingImport (prop : UpstreamListing) : PropertyData :=
  mapListingCore prop

/-- `propertyData` as built by the mark-for-publishing handler: platform id
is the combined `customerId/listingId`, and the record is marked published
at the current time. -/
def mapListingPublish (customerId : String) (prop : UpstreamListing) (now : Nat) :
    PropertyData :=
  { mapListingCore prop with
    platformId := customerId ++ "/" ++ prop.id
    isPublished := some true
    publishedAt := some now }

/-! ## Slug derivation

`routes.ts` (mark-for-publishing handler) derives a slug as
`(title || name || 'property').toLowerCase().replace(/[^\w\s-]/g, '').replace(/\s+/g, '-')`.
`\w` is ASCII `[A-Za-z0-9_]`; `\s` is modelled by the ASCII whitespace
characters that occur in property names. -/

/-- Regex `\w`: ASCII letters, digits or underscore. -/
def isWordChar (c : Char) : Bool := c.isAlpha || c.isDigit || c = '_'

/-- Regex `\s` restricted to ASCII whitespace. -/
def isJsSpace (c : Char) : Bool := c = ' ' || c = '\t' || c = '\n' || c = '\r'

/-- Global `replace(/\s+/g, '-')`: each maximal whitespace run becomes one
hyphen.  The boolean records whether the previous character was part of a
whitespace run. -/
def collapseWsAux : Bool → List Char → List Char
  | _, [] => []
  | prevWs, c :: cs =>
    if isJsSpace c then
      if prevWs then collapseWsAux true cs else '-' :: collapseWsAux true cs
    else c :: collapseWsAux false cs

/-- The slug derivation of the publish handler: lowercase, strip characters
outside `[\w\s-]`, then turn whitespace runs into hyphens. -/
def slugify (s : String) : String :=
  String.mk (collapseWsAux false ((s.data.map Char.toLower).filter
    (fun c => isWordChar c || isJsSpace c || c = '-')))

/-! ## The Local Catalog Store

Modelled from the spec: `server/storage.ts` is not among the sources under
verification; §6 of the spec describes its interface (`findByPlatformId`,
`findBySlug`, `findById`, `create`, `update`) and §3 its data model (records
keyed by an internal numeric id and a platform identifier).  `create`
assigns the next internal numeric id; the slug of a created property is
derived from its display title (spec §4.5 step 2); `update` replaces the
supplied fields. -/

/-- A persisted catalog property: internal numeric id, slug, the mapped
field group, publication state and the image-ingestion timestamp. -/
structure CatalogProperty where
  id : Nat
  slug : String
  fields : PropertyData
  isPublished : Bool := false
  publishedAt : Option Nat := none
  imagesStoredAt : Option Nat := none
  updatedAt : Option Nat := none
deriving Repr, DecidableEq

/-- The Local Catalog Store state: the next internal id to assign and the
persisted properties in insertion order. -/
structure StoreState where
  nextId : Nat := 1
  props : List CatalogProperty := []
deriving Repr, DecidableEq

/-- The empty store. -/
def emptyStore : StoreState := {}

/-- Modelled from the spec: `findById` — `storage.getProperty(n)` looks a
property up by its internal numeric id; a `NaN` argument (embedded `none`)
finds nothing. -/
def getProperty (st : StoreState) (pid : Option Nat) : Option CatalogProperty :=
  match pid with
  | some n => st.props.find? (fun p => p.id = n)
  | none => none

/-- Modelled from the spec: the pseudo-filter search
`searchProperties('platformId:<v>')` returns the properties whose platform
identifier equals `v`, in store order. -/
def searchByPlatformId (st : StoreState) (v : String) : List CatalogProperty :=
  st.props.filter (fun p => p.fields.platformId = v)

/-- Modelled from the spec: the pseudo-filter search
`searchProperties('external_id:<v>')` (and its `externalId:` spelling)
returns the properties whose external id equals `v`, in store order. -/
def searchByExternalId (st : StoreState) (v : String) : List CatalogProperty :=
  st.props.filter (fun p => p.fields.externalId = v)

/-- Modelled from the spec: `findBySlug` — `storage.getPropertyBySlug`. -/
def getPropertyBySlug (st : StoreState) (slug : String) : Option CatalogProperty :=
  st.props.find? (fun p => p.slug = slug)

/-- Overwrite a stored property with a freshly mapped field group (the
`update` of spec §6: the subsystem computes a full mapped object, so all
mapped columns are replaced; slug and publication columns are touched only
when the mapped object carries them). -/
def applyFull (p : CatalogProperty) (d : PropertyData) : CatalogProperty :=
  { p with
    fields := d
    slug := d.slug.getD p.slug
    isPublished := d.isPublished.getD p.isPublished
    publishedAt := match d.publishedAt with
      | some t => some t
      | none => p.publishedAt }

/-- Modelled from the spec: `update` keyed by internal id, with a full
mapped object. -/
def updatePropertyFull (st : StoreState) (pid : Nat) (d : PropertyData) : StoreState :=
  { st with props := st.props.map (fun q => if q.id = pid then applyFull q d else q) }

/-- Modelled from the spec: `create` — persists the mapped object under the
next internal numeric id; when the mapped object carries no slug the store
derives one from the display title (spec §4.5). -/
def createProperty (st : StoreState) (d : PropertyData) : StoreState × CatalogProperty :=
  let p : CatalogProperty :=
    { id := st.nextId
      slug := d.slug.getD (slugify (if d.title = "" then (if d.name = "" then "property" else d.name) else d.title))
      fields := d
      isPublished := d.isPublished.getD false
      publishedAt := d.publishedAt }
  ({ nextId := st.nextId + 1, props := st.props ++ [p] }, p)

/-- Modelled from the spec: the partial `update` issued by
`storePropertyImages` — only the image columns and `updatedAt` are set. -/
def updatePropertyImages (st : StoreState) (pid : Nat) (imageUrl : String)
    (additionalImages : List String) (now : Nat) : StoreState :=
  { st with props := st.props.map (fun q =>
      if q.id = pid then
        { q with
          fields := { q.fields with imageUrl := imageUrl, additionalImages := additionalImages }
          updatedAt := some now }
      else q) }

/-- Modelled from the spec: the separate column update stamping
`imagesStoredAt` (the direct `db.update` in `storePropertyImages`). -/
def setImagesStoredAt (st : StoreState) (pid : Nat) (now : Nat) : StoreState :=
  { st with props := st.props.map (fun q =>
      if q.id = pid then { q with imagesStoredAt := some now } else q) }

/-! ## The import flow (`POST /api/hospitable/import-listings`) -/

/-- One iteration of the import loop: look the listing up by
`storage.getProperty(Number(prop.id))` — an internal-id lookup keyed by the
*upstream* listing id — then update the found record or create a new one
from the mapped data. -/
def importStep (st : StoreState) (prop : UpstreamListing) : StoreState × CatalogProperty :=
  let d := mapListingImport prop
  match getProperty st (jsNumber prop.id) with
  | some ep => (updatePropertyFull st ep.id d, applyFull ep d)
  | none => createProperty st d

/-- The import loop over the fetched upstream listings, returning the new
store and the `importedProperties` list.  The handler has the customer id
in scope but the import mapping never uses it (the platform id stored is
the bare `prop.id`).  In the source each iteration is wrapped in a
try/catch so one failure skips only that item; the modelled store
operations are total, so the catch is never taken. -/
def importRun (_customerId : String) :
    List UpstreamListing → StoreState → StoreState × List CatalogProperty
  | [], st => (st, [])
  | l :: ls, st =>
    let (st1, p) := importStep st l
    let (st2, ps) := importRun _customerId ls st1
    (st2, p :: ps)

/-! ## The publish flow upsert (`POST /api/hospitable/mark-for-publishing`) -/

/-- One iteration of the publish loop (before image ingestion): look the
listing up by platform identifier `customerId/listingId`; if found, update
it; otherwise derive the slug and, when another property already owns that
slug, *update that property* with the mapped data plus a time-suffixed
slug; only when the slug is free is a new property created. -/
def publishStep (customerId : String) (prop : UpstreamListing) (now : Nat)
    (st : StoreState) : StoreState × CatalogProperty :=
  let combinedPlatformId := customerId ++ "/" ++ prop.id
  let d := mapListingPublish customerId prop now
  match (searchByPlatformId st combinedPlatformId).head? with
  | some ep => (updatePropertyFull st ep.id d, applyFull ep d)
  | none =>
    let slug := slugify (if d.title = "" then (if d.name = "" then "property" else d.name) else d.title)
    match getPropertyBySlug st slug with
    | some other =>
      let d' := { d with slug := some (slug ++ "-" ++ last6 now) }
      (updatePropertyFull st other.id d', applyFull other d')
    | none => createProperty st d

/-! ## Images: raw upstream shape and processed shape -/

/-- An image object as the upstream API returns it (fields may be absent). -/
structure RawImage where
  url : Option String := none
  thumbnail_url : Option String := none
  caption : Option String := none
  position : Option Nat := none
deriving Repr, DecidableEq

/-- A processed image as the pipeline serves and caches it.  A JS
`undefined` thumbnail is embedded as the empty string. -/
structure Image where
  url : String
  thumbnail_url : String
  caption : Option String := none
  position : Nat
  fromDatabase : Bool := false
  fromFallback : Bool := false
  isPositionSpecific : Bool := false
deriving Repr, DecidableEq

/-- The muscache-CDN URL rewrite shared verbatim by
`downloadAndStorePropertyImages` (both branches) and `storePropertyImages`:
convert the first `https://a0.muscache.com/im/` prefix occurrence to the
direct URL, then force `aki_policy=large` (first-match regex replace when
an `aki_policy=` parameter exists, otherwise append one). -/
def optimizeUrl (url : String) : String :=
  if strIncludes url "muscache.com" then
    let u1 :=
      if strIncludes url "/im/" then
        strReplaceFirst url "https://a0.muscache.com/im/" "https://a0.muscache.com/"
      else url
    if strIncludes u1 "aki_policy=" then
      strReplacePolicy u1 "aki_policy=" "aki_policy=large"
    else u1 ++ (if strIncludes u1 "?" then "&" else "?") ++ "aki_policy=large"
  else url

/-- `getOptimizedAirbnbImageUrl` from
`src/client/src/lib/hospitable/property-utils.ts`: the same rewrite with an
early return for a falsy URL. -/
def getOptimizedAirbnbImageUrl (url : String) : String :=
  if url = "" then "" else optimizeUrl url

/-- The image-processing map of the dedicated images-endpoint branch of
`downloadAndStorePropertyImages`: optimize the URL, default the thumbnail
to it, and set `position` to `img.position || index` (an explicit non-zero
upstream position is preserved; zero is falsy in JS and becomes the
index). -/
def processEndpointImage (index : Nat) (img : RawImage) : Image :=
  let u := optimizeUrl (jsStrOr img.url "")
  { url := u
    thumbnail_url := jsStrOr img.thumbnail_url u
    caption := img.caption
    position := match img.position with
      | some n => if n = 0 then index else n
      | none => index }

/-- The image-processing map of the listing-details fallback branch of
`downloadAndStorePropertyImages`: identical except `position` is always the
input index. -/
def processDetailsImage (index : Nat) (img : RawImage) : Image :=
  let u := optimizeUrl (jsStrOr img.url "")
  { url := u
    thumbnail_url := jsStrOr img.thumbnail_url u
    caption := img.caption
    position := index }

/-- A listing-details response body, as far as the image-extraction code
reads it. -/
structure ListingDetails where
  images : Option (List RawImage) := none
  photos : Option (List RawImage) := none
  picture : Option String := none
  public_name : Option String := none
deriving Repr, DecidableEq

/-- Image extraction from a listing-details body in
`downloadAndStorePropertyImages`: prefer `data.images`, then map
`data.photos`, then a single `data.picture` (falsy picture means no
images). -/
def extractDetailsImages (d : ListingDetails) : List RawImage :=
  match d.images with
  | some imgs => imgs
  | none =>
    match d.photos with
    | some ps => ps.map (fun p =>
        { url := some (jsStrOr p.url "")
          thumbnail_url := some (jsStrOr p.thumbnail_url (jsStrOr p.url ""))
          caption := some (jsStrOr p.caption "")
          position := some (p.position.getD 0) })
    | none =>
      match d.picture with
      | some pic =>
        if pic = "" then []
        else [{ url := some pic, thumbnail_url := some pic
                caption := some (jsStrOr d.public_name ""), position := some 0 }]
      | none => []

/-- The JSON shape of an images-endpoint success body: `{ data: [...] }`,
a bare array, or something else (which yields no images). -/
inductive ImagesPayload
  | wrapped (imgs : List RawImage)
  | plain (imgs : List RawImage)
  | malformed
deriving Repr, DecidableEq

/-- `resultImages` extraction of `downloadAndStorePropertyImages`. -/
def payloadImages : ImagesPayload → List RawImage
  | .wrapped imgs => imgs
  | .plain imgs => imgs
  | .malformed => []

/-- Outcome of a GET on the dedicated images endpoint, with the upstream
body's `message` field where the handlers read it. -/
inductive ImagesResp
  | ok (p : ImagesPayload)
  | notFound
  | rateLimited (message : Option String)
  | httpError (status : Nat) (message : Option String)
deriving Repr, DecidableEq

/-- Outcome of a GET on the listing-details endpoint. -/
inductive DetailsResp
  | ok (d : ListingDetails)
  | httpError (status : Nat) (message : Option String)
deriving Repr, DecidableEq

/-- What the upstream provider would answer during one request. -/
structure UpstreamEnv where
  images : ImagesResp
  details : DetailsResp
deriving Repr, DecidableEq

/-- Request-environment: the platform bearer token (if configured) and the
upstream behaviour. -/
structure Env where
  token : Option String := some "token"
  upstream : UpstreamEnv
deriving Repr, DecidableEq

/-! ## Process-wide mutable state -/

/-- An `imageCache` entry: a processed image list and its timestamp. -/
structure CacheEntry where
  images : List Image
  timestamp : Nat
deriving Repr, DecidableEq

/-- A `global.apiRateLimit` entry: request count and window timestamp. -/
structure RateEntry where
  count : Nat
  timestamp : Nat
deriving Repr, DecidableEq

/-- Association-list lookup (newest binding first). -/
def alookup (m : List (String × α)) (k : String) : Option α :=
  (m.find? (fun e => e.1 = k)).map Prod.snd

/-- Association-list update: the new binding shadows any previous one. -/
def aupdate (m : List (String × α)) (k : String) (v : α) : List (String × α) :=
  (k, v) :: m.filter (fun e => e.1 ≠ k)

/-- The process-wide mutable state the handlers share: the in-memory image
cache, the two rate-limit maps, the Local Catalog Store and the clock
(epoch milliseconds, advanced by the explicit waits in the source). -/
structure SysState where
  imageCache : List (String × CacheEntry) := []
  apiRateLimit : List (String × RateEntry) := []
  apiRateLimitCache : List (String × Nat) := []
  store : StoreState := {}
  now : Nat := 0
deriving Repr, DecidableEq

/-- 24 hours in milliseconds, the image-cache staleness window. -/
def hour24 : Nat := 24 * 60 * 60 * 1000

/-- Which tier produced the result of `downloadAndStorePropertyImages`. -/
inductive ImageSource
  | memCache
  | database
  | upstreamImages
  | upstreamDetails
  | noToken
  | caught
deriving Repr, DecidableEq

/-- Result of `downloadAndStorePropertyImages`: the images, the tier that
produced them, and the state after the call. -/
structure DownloadResult where
  images : List Image
  source : ImageSource
  state : SysState
deriving Repr, DecidableEq

/-- The 32-hex-digit reformatting step at the top of
`downloadAndStorePropertyImages`. -/
def reformatListingId (lid : String) : String :=
  if lid.length = 32 && !(strIncludes lid "-") then
    lid.take 8 ++ "-" ++ ((lid.drop 8).take 4) ++ "-" ++ ((lid.drop 12).take 4)
      ++ "-" ++ ((lid.drop 16).take 4) ++ "-" ++ lid.drop 20
  else lid

/-- The database-tier loop of `downloadAndStorePropertyImages`: try the
three platform-id formats in order; a hit requires a search result whose
primary image URL is truthy. -/
def dbTierHit (store : StoreState) : List String → Option CatalogProperty
  | [] => none
  | f :: fs =>
    match (searchByPlatformId store f).head? with
    | some p => if p.fields.imageUrl ≠ "" then some p else dbTierHit store fs
    | none => dbTierHit store fs

/-- The database-to-API image-list conversion used by the database tier of
`downloadAndStorePropertyImages` (and, identically, by the stored-images
branch of the GET property-images route): the primary image at position 0,
then `additionalImages[idx]` at position `idx + 1`. -/
def dbImages (p : CatalogProperty) : List Image :=
  { url := p.fields.imageUrl, thumbnail_url := p.fields.imageUrl
    position := 0, fromDatabase := true } ::
  mapWithIndex (fun idx u =>
    { url := u, thumbnail_url := u, position := idx + 1, fromDatabase := true })
    0 p.fields.additionalImages

/-- `downloadAndStorePropertyImages` (`routes.ts:921-1199`), the ingestion
helper shared by the publish flow and the on-demand fetch route.  Tier
order as in the source: in-memory cache (24-hour freshness) first, then —
after the 5-second spacing wait, the rate-limit bookkeeping and the token
check — the database tier over the three platform-id formats, then the
upstream images endpoint with its listing-details fallback on 404.  Every
failure (missing token, upstream HTTP error, 429) yields an empty image
list: the body is wrapped in a try/catch whose catch returns `[]`. -/
def downloadAndStorePropertyImages (env : Env) (customerId listingId0 : String)
    (st : SysState) : DownloadResult :=
  let listingId := reformatListingId listingId0
  let cacheKey := customerId ++ ":" ++ listingId
  let cachedFresh : Option (List Image) :=
    match alookup st.imageCache cacheKey with
    | some e => if st.now - e.timestamp < hour24 then some e.images else none
    | none => none
  match cachedFresh with
  | some imgs => { images := imgs, source := .memCache, state := st }
  | none =>
    let now1 :=
      match alookup st.apiRateLimit cacheKey with
      | some r => if st.now - r.timestamp < 5000 then r.timestamp + 5000 else st.now
      | none => st.now
    let prevCount := ((alookup st.apiRateLimit cacheKey).map RateEntry.count).getD 0
    let st1 : SysState :=
      { st with now := now1
                apiRateLimit := aupdate st.apiRateLimit cacheKey ⟨prevCount + 1, now1⟩ }
    match env.token with
    | none => { images := [], source := .noToken, state := st1 }
    | some _ =>
      let formats := [customerId ++ "/" ++ listingId, customerId ++ ":" ++ listingId, listingId]
      match dbTierHit st1.store formats with
      | some p =>
        let allImages := dbImages p
        { images := allImages
          source := .database
          state := { st1 with imageCache := aupdate st1.imageCache cacheKey ⟨allImages, st1.now⟩ } }
      | none =>
        match env.upstream.images with
        | .ok payload =>
          let processed := mapWithIndex processEndpointImage 0 (payloadImages payload)
          { images := processed
            source := .upstreamImages
            state := { st1 with imageCache := aupdate st1.imageCache cacheKey ⟨processed, st1.now⟩ } }
        | .notFound =>
          let st2 : SysState := { st1 with now := st1.now + 1000 }
          match env.upstream.details with
          | .ok d =>
            let processed := mapWithIndex processDetailsImage 0 (extractDetailsImages d)
            { images := processed
              source := .upstreamDetails
              state := { st2 with imageCache := aupdate st2.imageCache cacheKey ⟨processed, st2.now⟩ } }
          | .httpError _ _ => { images := [], source := .caught, state := st2 }
        | .rateLimited _ => { images := [], source := .caught, state := st1 }
        | .httpError _ _ => { images := [], source := .caught, state := st1 }

/-! ## Storing fetched images on a property (`storePropertyImages`) -/

/-- `storePropertyImages` (`routes.ts:1202-1294`): find the target property
by platform id and then by external id (the `external_id:` and
`externalId:` search patterns read the same column in the modelled store),
re-optimize and keep only truthy image URLs, store the first as the primary
image and the rest as `additionalImages`, and stamp `imagesStoredAt`
separately.  Returns whether anything was stored. -/
def storePropertyImages (platformId : String) (images : List Image)
    (st : SysState) : SysState × Bool :=
  if images.isEmpty then (st, false)
  else
    let found : Option CatalogProperty :=
      match (searchByPlatformId st.store platformId).head? with
      | some p => some p
      | none => (searchByExternalId st.store platformId).head?
    match found with
    | none => (st, false)
    | some p =>
      let processed := images.filterMap (fun img =>
        if img.url = "" then none else some (optimizeUrl img.url))
      match processed with
      | [] => (st, false)
      | mainImage :: additionalImages =>
        let store1 := updatePropertyImages st.store p.id mainImage additionalImages st.now
        let store2 := setImagesStoredAt store1 p.id st.now
        ({ st with store := store2 }, true)

/-! ## Platform-identifier parsing -/

/-- JS `String.prototype.split` on a single separator character. -/
def splitOnCharL (sep : Char) : List Char → List (List Char)
  | [] => [[]]
  | c :: cs =>
    let r := splitOnCharL sep cs
    if c = sep then [] :: r
    else
      match r with
      | h :: t => (c :: h) :: t
      | [] => [[c]]

/-- JS `s.split(sep)` on strings. -/
def splitOnChar (s : String) (sep : Char) : List String :=
  (splitOnCharL sep s.data).map String.mk

/-- `extractPropertyIds` (`routes.ts:23-49`, duplicated in
`property-utils.ts`): split a platform identifier on `/`, else on `:`;
exactly two parts give `(customerId, listingId)`; no separator or any
other part count gives a bare listing id with unknown customer. -/
def extractPropertyIds (platformId : String) : Option String × Option String :=
  if platformId = "" then (none, none)
  else if strIncludes platformId "/" then
    let parts := splitOnChar platformId '/'
    if parts.length = 2 then (parts.get? 0, parts.get? 1) else (none, some platformId)
  else if strIncludes platformId ":" then
    let parts := splitOnChar platformId ':'
    if parts.length = 2 then (parts.get? 0, parts.get? 1) else (none, some platformId)
  else (none, some platformId)

/-! ## GET `/api/hospitable/property-images/:customerId/:listingId` -/

/-- The hard-coded stock fallback URL of the `fallbackImages` constant. -/
def fallbackImageUrl : String :=
  "https://a0.muscache.com/im/pictures/hosting/Hosting-U3RheVN1cHBseUxpc3Rpbmc6MTM3MTA0ODcyMzEzMzYyMjM5NA==/original/e68a4732-3aa3-4d57-8f77-aba7d0e70d90.jpeg"

/-- `getPositionDependentImage`: the stock fallback image carrying the
requested position. -/
def getPositionDependentImage (position : Nat) : Image :=
  { url := fallbackImageUrl, thumbnail_url := fallbackImageUrl
    position := position, fromFallback := true }

/-- The rate-limit heuristic of the GET route's catch block. -/
def isRateLimitedMsg (m : String) : Bool :=
  strIncludes m "Too Many Attempts" || strIncludes m "rate limit" || strIncludes m "429"

/-- The not-found heuristic of the GET route's catch block. -/
def isNotFoundMsg (m : String) : Bool :=
  strIncludes m "No query results for model" || strIncludes m "not found" || strIncludes m "404"

/-- The error message thrown on a non-OK upstream response in the GET
route: the body's `message` if truthy, else the fixed status-bearing
text. -/
def getUpstreamErrorMessage (status : Nat) (msg : Option String) : String :=
  jsStrOr msg ("HTTP error when connecting to Hospitable API: " ++ toString status
    ++ ". Make sure your HOSPITABLE_PLATFORM_TOKEN is valid and has the correct permissions.")

/-- The per-image map building `uniqueImages` in the GET route: rewrite the
resize policy for muscache `/im/` URLs and append `idx=<index>&t=<now>`
(the `?`-versus-`&` choice reads the *original* URL, since in the source
the whole right-hand side is evaluated before `img.url` is reassigned);
non-empty non-muscache URLs just get the suffix; a falsy URL is left
alone.  Every output position is the input index. -/
def uniqueImageStep (now index : Nat) (img : RawImage) : Image :=
  let u := jsStrOr img.url ""
  let u' :=
    if u ≠ "" && strIncludes u "muscache.com/im/" then
      strReplacePolicy u "?aki_policy=" "?aki_policy=large"
        ++ (if strIncludes u "?" then "&" else "?")
        ++ "idx=" ++ toString index ++ "&t=" ++ toString now
    else if u ≠ "" then
      u ++ (if strIncludes u "?" then "&" else "?")
        ++ "idx=" ++ toString index ++ "&t=" ++ toString now
    else u
  { url := u', thumbnail_url := jsStrOr img.thumbnail_url ""
    caption := img.caption, position := index }

/-- The `uniqueImages` mapping over a fetched image list. -/
def uniqueImages (now : Nat) (allImages : List RawImage) : List Image :=
  mapWithIndex (uniqueImageStep now) 0 allImages

/-- The GET route's extraction of `allImages` from a listing-details body:
only `data.images` is consulted (each entry re-shaped with an `order`
field, which the later `uniqueImages` position assignment supersedes and
which this embedding therefore does not carry). -/
def getRouteDetailsImages (d : ListingDetails) : List RawImage :=
  match d.images with
  | some imgs => imgs.map (fun img =>
      { url := some (jsStrOr img.url "")
        thumbnail_url := some (jsStrOr img.thumbnail_url (jsStrOr img.url ""))
        caption := some (jsStrOr img.caption "")
        position := none })
  | none => []

/-- The GET route's extraction of `allImages` from an images-endpoint body:
`data.data` when present; otherwise the body is treated as a details-like
object (`data.images`), which a bare array does not have. -/
def getRoutePayloadImages : ImagesPayload → List RawImage
  | .wrapped imgs => imgs
  | .plain _ => []
  | .malformed => []

/-- A response of the GET property-images route, carrying the JSON flags
the handler sets. -/
structure ImagesResponse where
  status : Nat
  data : List Image := []
  fallback : Bool := false
  rateLimited : Bool := false
  notFound : Bool := false
  cached : Bool := false
  retryAfter : Option Nat := none
  position : Option Nat := none
deriving Repr, DecidableEq

/-- The part of the GET property-images handler after the 5-second spacing
gate: empty-parameter check, per-minute counter (429 beyond 5 requests per
60 s; the cached fallback inside it is dead because `forceRefresh` is
hard-coded `true`), the (likewise dead) 24-hour cache read, token check
(500), upstream fetch with details fallback on 404, `uniqueImages`, cache
write, position-specific selection; thrown upstream errors hit the catch
block, which answers 200 with the stock fallback image when the message
matches the rate-limit or not-found heuristics and 500 otherwise.
`position` is `Number(pos) || 0` and hence never `undefined`, so the
position check in the catch block always takes the position-specific
branch. -/
def getAfterSpacingGate (env : Env) (customerId listingId : String)
    (pos : Option Nat) (st1 : SysState) : ImagesResponse × SysState :=
  let position := pos.getD 0
  if customerId = "" || listingId = "" then ({ status := 400 }, st1)
  else
      let cacheKey := customerId ++ ":" ++ listingId
      let (st2, overLimit) :=
        match alookup st1.apiRateLimit cacheKey with
        | none =>
          ({ st1 with apiRateLimit := aupdate st1.apiRateLimit cacheKey ⟨1, st1.now⟩ }, false)
        | some r =>
          if st1.now - r.timestamp > 60000 then
            ({ st1 with apiRateLimit := aupdate st1.apiRateLimit cacheKey ⟨1, st1.now⟩ }, false)
          else
            ({ st1 with apiRateLimit := aupdate st1.apiRateLimit cacheKey ⟨r.count + 1, r.timestamp⟩ },
             decide (r.count + 1 > 5))
      if overLimit then ({ status := 429, rateLimited := true }, st2)
      else
        match env.token with
        | none => ({ status := 500 }, st2)
        | some _ =>
          let fetched : Except String (List RawImage) :=
            match env.upstream.images with
            | .ok p => .ok (getRoutePayloadImages p)
            | .notFound =>
              match env.upstream.details with
              | .ok d => .ok (getRouteDetailsImages d)
              | .httpError s m => .error (getUpstreamErrorMessage s m)
            | .rateLimited m => .error (getUpstreamErrorMessage 429 m)
            | .httpError s m => .error (getUpstreamErrorMessage s m)
          match fetched with
          | .error msg =>
            if isRateLimitedMsg msg || isNotFoundMsg msg then
              ({ status := 200, data := [getPositionDependentImage position]
                 fallback := true
                 rateLimited := isRateLimitedMsg msg
                 notFound := isNotFoundMsg msg }, st2)
            else ({ status := 500 }, st2)
          | .ok allImages =>
            let uniq := uniqueImages st2.now allImages
            let st3 : SysState :=
              { st2 with imageCache := aupdate st2.imageCache cacheKey ⟨uniq, st2.now⟩ }
            if uniq.length > 1 then
              match uniq.get? (position % uniq.length) with
              | some sel =>
                ({ status := 200
                   data := [{ sel with position := position, isPositionSpecific := true }] }, st3)
              | none => ({ status := 200, data := uniq }, st3)
            else ({ status := 200, data := uniq }, st3)

/-- GET `/api/hospitable/property-images/:customerId/:listingId`
(`routes.ts:1296-1674`).  The 5-second spacing gate answers 429 with
`retryAfter` = the remaining window seconds rounded up and echoes the
requested position; otherwise the spacing timestamp for the key is
written and the rest of the handler (`getAfterSpacingGate`) runs.  The
stored-images database branch between the gate and the parameter check is
dead (`forceRefresh` is hard-coded `true`), though its search still
executes. -/
def getPropertyImagesHandler (env : Env) (customerId listingId : String)
    (pos : Option Nat) (st : SysState) : ImagesResponse × SysState :=
  let position := pos.getD 0
  let rateLimitKey := customerId ++ "/" ++ listingId
  let spacingHit : Option Nat :=
    match alookup st.apiRateLimitCache rateLimitKey with
    | some ts => if st.now - ts < 5000 then some (st.now - ts) else none
    | none => none
  match spacingHit with
  | some timeElapsed =>
    ({ status := 429, rateLimited := true
       retryAfter := some ((5000 - timeElapsed + 999) / 1000)
       position := some position }, st)
  | none =>
    let st1 : SysState :=
      { st with apiRateLimitCache := aupdate st.apiRateLimitCache rateLimitKey st.now }
    let _dbProbe := searchByExternalId st1.store listingId
    getAfterSpacingGate env customerId listingId pos st1

/-! ## POST `/api/hospitable/fetch-property-images` -/

/-- A response of the on-demand fetch route. -/
structure FetchImagesResponse where
  status : Nat
  success : Bool := false
  imageCount : Nat := 0
  fallback : Bool := false
deriving Repr, DecidableEq

/-- POST `/api/hospitable/fetch-property-images` (`routes.ts:1908-1973`):
validate the body (falsy `propertyId` or `platformId` is a 400), parse the
platform identifier (both parts required, else 400), run
`downloadAndStorePropertyImages`; a non-empty result is stored via
`storePropertyImages` and stamped, a missing or empty result answers 404
`success: false`. -/
def fetchPropertyImagesHandler (env : Env) (propertyId : Option Nat)
    (platformId : Option String) (st : SysState) : FetchImagesResponse × SysState :=
  if propertyId.getD 0 = 0 || (jsStrOr platformId "") = "" then ({ status := 400 }, st)
  else
    let pid := propertyId.getD 0
    let plid := jsStrOr platformId ""
    match extractPropertyIds plid with
    | (some customerId, some listingId) =>
      if customerId = "" || listingId = "" then ({ status := 400 }, st)
      else
        let r := downloadAndStorePropertyImages env customerId listingId st
        if r.images.isEmpty then ({ status := 404, success := false }, r.state)
        else
          let (st2, _) := storePropertyImages plid r.images r.state
          let st3 : SysState :=
            { st2 with store := setImagesStoredAt st2.store pid st2.now }
          ({ status := 200, success := true, imageCount := r.images.length }, st3)
    | _ => ({ status := 400 }, st)

/-! ## Derived helpers used only in statements -/

/-- The slug the publish handler derives from a mapped listing
(`(propertyData.title || propertyData.name || 'property')` slugified). -/
def derivedSlug (prop : UpstreamListing) : String :=
  let d := mapListingCore prop
  slugify (if d.title = "" then (if d.name = "" then "property" else d.name) else d.title)

/-- The run-time-independent prefix of a `uniqueImages` URL for an image
with a truthy URL: everything up to (and including) the `&t=` marker; the
full URL is this prefix followed by the decimal request time. -/
def uniqueUrlBase (img : RawImage) (index : Nat) : String :=
  let u := jsStrOr img.url ""
  (if strIncludes u "muscache.com/im/" then
      strReplacePolicy u "?aki_policy=" "?aki_policy=large"
    else u)
    ++ (if strIncludes u "?" then "&" else "?")
    ++ "idx=" ++ toString index ++ "&t="

/-! ## Concrete example inputs for witnesses and counterexamples -/

/-- A listing with a non-numeric (UUID-style) upstream id, as Hospitable
issues them. -/
def exListingC1 : UpstreamListing := { id := "abc-123", public_name := some "Ocean View" }

/-- A listing whose derived slug is `ocean-view`. -/
def exListingC2 : UpstreamListing := { id := "lst-9", public_name := some "Ocean View" }

/-- An existing property that owns the slug `ocean-view` under a different
platform identifier, with field values of its own. -/
def exOwnerC2 : CatalogProperty :=
  { id := 7, slug := "ocean-view"
    fields := { mapListingCore { id := "other-id" } with name := "Old Villa", price := 50 } }

/-- A store holding only `exOwnerC2`. -/
def exStoreC2 : StoreState := { nextId := 8, props := [exOwnerC2] }

/-- Upstream listing `L1` of the cold-import scenario. -/
def exL1 : UpstreamListing := { id := "L1" }

/-- Upstream listing `L2` of the cold-import scenario. -/
def exL2 : UpstreamListing := { id := "L2" }

/-- A processed image sitting in the in-memory cache. -/
def exCacheImgC4 : Image :=
  { url := "https://cache.example/a.jpg", thumbnail_url := "https://cache.example/a.jpg"
    position := 0 }

/-- A catalog property with stored images matching key `c7/L7`. -/
def exDbPropC4 : CatalogProperty :=
  { id := 3, slug := "p"
    fields := { mapListingCore { id := "L7" } with
                imageUrl := "https://db.example/b.jpg", platformId := "c7/L7" } }

/-- A state in which both the in-memory cache and the catalog can answer
the key `(c7, L7)`, with different images. -/
def exStC4 : SysState :=
  { imageCache := [("c7:L7", ⟨[exCacheImgC4], 0⟩)]
    store := { nextId := 4, props := [exDbPropC4] }
    now := 1000 }

/-- An environment whose upstream always fails (it must not be reached in
the C4 scenario). -/
def envC4 : Env := { upstream := { images := .httpError 500 none, details := .httpError 500 none } }

/-- A raw image with a plain non-muscache URL. -/
def exRawC5 : RawImage := { url := some "https://example.com/x.jpg" }

/-- A listing whose present numeric fields are zero. -/
def exListingC6 : UpstreamListing := { id := "Z", base_price := some 0, bedrooms := some 0 }

/-- A fetched image with no URL at all. -/
def exRawNoUrl : RawImage := {}

/-- A fetched image with a URL. -/
def exRawWithUrl : RawImage := { url := some "https://example.com/b.jpg" }

/-- The ingestion-path normalization of `[exRawNoUrl, exRawWithUrl]`
(listing-details branch: positions are the input indices). -/
def exIngestedC7 : List Image := mapWithIndex processDetailsImage 0 [exRawNoUrl, exRawWithUrl]

/-- The property whose images are being stored in the C7 scenario. -/
def exPropC7 : CatalogProperty :=
  { id := 11, slug := "prop"
    fields := { mapListingCore { id := "PL1" } with platformId := "PL1" } }

/-- A state holding only `exPropC7`. -/
def exStC7 : SysState := { store := { nextId := 12, props := [exPropC7] }, now := 42 }

/-- An upstream that reports not-found on both image endpoints (the
details fallback fails with a plain 404 and no body message). -/
def envNotFound : Env :=
  { upstream := { images := .notFound, details := .httpError 404 none } }

/-- An upstream whose images endpoint rate-limits with the standard
Hospitable body message. -/
def envRateLimited : Env :=
  { upstream := { images := .rateLimited (some "Too Many Attempts.")
                  details := .httpError 500 none } }

/-- An upstream whose images endpoint rate-limits with a body message that
matches none of the catch-block heuristics. -/
def envOddRateLimited : Env :=
  { upstream := { images := .rateLimited (some "Slow down, please")
                  details := .httpError 500 none } }

/-- A fresh state at time 1000 (all maps empty, empty store). -/
def exStFresh : SysState := { now := 1000 }

/-- An environment with no platform token configured. -/
def envNoToken : Env :=
  { token := none
    upstream := { images := .ok (.wrapped []), details := .httpError 500 none } }

/-- A state with the catalog populated but the in-memory cache empty. -/
def exStC4w : SysState := { store := { nextId := 4, props := [exDbPropC4] }, now := 1000 }

/-- A listing with a present non-empty description and city, an absent
price, and an empty state. -/
def exListingC6w : UpstreamListing :=
  { id := "W", description := some "Nice flat", city := some "Lisbon"
    state := some "", country := some "Portugal" }

/-- A one-element processed image list with a truthy URL and position 0. -/
def exImagesC7w : List Image := mapWithIndex processDetailsImage 0 [exRawWithUrl]

/-! ## Helper lemmas -/

theorem mapWithIndex_length (f : Nat → α → β) (i : Nat) (l : List α) :
    (mapWithIndex f i l).length = l.length := by
  induction l generalizing i with
  | nil => rfl
  | cons a as ih => simp [mapWithIndex, ih]

theorem mapWithIndex_map (f : Nat → α → β) (g : β → γ) (i : Nat) (l : List α) :
    (mapWithIndex f i l).map g = mapWithIndex (fun j a => g (f j a)) i l := by
  induction l generalizing i with
  | nil => rfl
  | cons a as ih => simp [mapWithIndex, ih]

theorem mapWithIndex_get? (f : Nat → α → β) (i j : Nat) (l : List α) :
    (mapWithIndex f i l).get? j = (l.get? j).map (f (i + j)) := by
  induction l generalizing i j with
  | nil => simp [mapWithIndex]
  | cons a as ih =>
    cases j with
    | zero => simp [mapWithIndex]
    | succ j =>
      simp only [mapWithIndex, List.get?_cons_succ, ih (i + 1) j]
      have h1 : i + 1 + j = i + (j + 1) := by omega
      rw [h1]

theorem mapWithIndex_const_index (c : Nat) (i : Nat) (l : List α) :
    mapWithIndex (fun j (_ : α) => j + c) i l = List.range' (i + c) l.length := by
  induction l generalizing i with
  | nil => rfl
  | cons a as ih =>
    have h1 : i + 1 + c = i + c + 1 := by omega
    simp only [mapWithIndex, ih (i + 1), h1, List.length_cons, List.range'_succ _ _ 1]

theorem alookup_aupdate_self (m : List (String × α)) (k : String) (v : α) :
    alookup (aupdate m k v) k = some v := by
  simp [alookup, aupdate]

theorem filterMap_all_some (l : List Image) (h : ∀ i ∈ l, i.url ≠ "") :
    l.filterMap (fun img => if img.url = "" then none else some (optimizeUrl img.url))
      = l.map (fun img => optimizeUrl img.url) := by
  induction l with
  | nil => rfl
  | cons a as ih =>
    have ha : a.url ≠ "" := h a (List.mem_cons_self a as)
    simp [List.filterMap_cons, ha, ih (fun i hi => h i (List.mem_cons_of_mem a hi))]

/-! ### The location-label rewrite chain -/

theorem collapse_cons_ne (c : Char) (l : List Char) (hc : c ≠ ',') :
    collapseCommaPairs (c :: l) = c :: collapseCommaPairs l := by
  match l with
  | [] => simp [collapseCommaPairs]
  | [d] => simp [collapseCommaPairs]
  | d :: e :: t =>
    rw [collapseCommaPairs, if_neg]
    intro ⟨h1, _, _⟩
    exact hc h1

theorem collapse_append_comma_free (xs ys : List Char) (h : ',' ∉ xs) :
    collapseCommaPairs (xs ++ ys) = xs ++ collapseCommaPairs ys := by
  induction xs with
  | nil => rfl
  | cons c cs ih =>
    have hc : c ≠ ',' := fun e => h (e ▸ List.mem_cons_self c cs)
    rw [List.cons_append, collapse_cons_ne c _ hc,
      ih (fun hm => h (List.mem_cons_of_mem c hm)), List.cons_append]

theorem collapse_comma_free (l : List Char) (h : ',' ∉ l) :
    collapseCommaPairs l = l := by
  have h2 := collapse_append_comma_free l [] h
  rw [show collapseCommaPairs [] = [] from rfl, List.append_nil] at h2
  exact h2

theorem collapse_pair_match (l : List Char) :
    collapseCommaPairs (',' :: ' ' :: ',' :: l) = ',' :: collapseCommaPairs l := by
  rw [collapseCommaPairs, if_pos ⟨rfl, rfl, rfl⟩]

theorem collapse_sep (l : List Char) (h : l.head? ≠ some ',') :
    collapseCommaPairs (',' :: ' ' :: l) = ',' :: ' ' :: collapseCommaPairs l := by
  cases l with
  | nil => simp [collapseCommaPairs]
  | cons x t =>
    have hx : x ≠ ',' := by
      intro e
      exact h (by rw [e]; rfl)
    rw [collapseCommaPairs, if_neg (by intro ⟨_, _, h3⟩; exact hx h3),
      collapse_cons_ne ' ' (x :: t) (by decide)]

theorem stripLead_nil : stripLeadCommaSpace [] = [] := rfl

theorem stripLead_sep (l : List Char) : stripLeadCommaSpace (',' :: ' ' :: l) = l := by
  simp [stripLeadCommaSpace, List.isPrefixOf]

theorem stripLead_of_head_ne (c : Char) (l : List Char) (h : c ≠ ',') :
    stripLeadCommaSpace (c :: l) = c :: l := by
  simp [stripLeadCommaSpace, List.isPrefixOf, Ne.symm h]

theorem stripTrail_nil : stripTrailCommaSpace [] = [] := rfl

theorem stripTrail_append_sep (l : List Char) :
    stripTrailCommaSpace (l ++ [',', ' ']) = l := by
  have hpre : ([',', ' '].isSuffixOf (l ++ [',', ' '])) = true := by
    simp [List.isSuffixOf, List.reverse_append, List.isPrefixOf]
  simp only [stripTrailCommaSpace, hpre, if_true, List.length_append, List.length_cons,
    List.length_nil]
  have : l.length + (0 + 1 + 1) - 2 = l.length := by omega
  rw [this, List.take_left]

theorem not_sep_suffix_mid (K : List Char) (hK : K ≠ []) (hc : ',' ∉ K) (l : List Char) :
    ([',', ' '].isSuffixOf (l ++ ' ' :: K)) = false := by
  match hrev : K.reverse with
  | [] => exact absurd (List.reverse_eq_nil_iff.mp hrev) hK
  | [x] =>
    have hKx : K = [x] := by
      have := congrArg List.reverse hrev
      simpa using this
    subst hKx
    simp [List.isSuffixOf, List.reverse_append, List.isPrefixOf]
  | x :: y :: ys =>
    have hy : y ∈ K := by
      rw [← List.mem_reverse, hrev]
      exact List.mem_cons_of_mem x (List.mem_cons_self y ys)
    have hyne : y ≠ ',' := fun e => hc (e ▸ hy)
    simp [List.isSuffixOf, List.reverse_append, hrev, List.isPrefixOf, Ne.symm hyne]

theorem not_sep_suffix_comma_free (K : List Char) (hc : ',' ∉ K) :
    ([',', ' '].isSuffixOf K) = false := by
  match hrev : K.reverse with
  | [] => simp [List.isSuffixOf, hrev, List.isPrefixOf]
  | [x] => simp [List.isSuffixOf, hrev, List.isPrefixOf]
  | x :: y :: ys =>
    have hy : y ∈ K := by
      rw [← List.mem_reverse, hrev]
      exact List.mem_cons_of_mem x (List.mem_cons_self y ys)
    have hyne : y ≠ ',' := fun e => hc (e ▸ hy)
    simp [List.isSuffixOf, hrev, List.isPrefixOf, Ne.symm hyne]

theorem stripTrail_of_not_suffix (l : List Char)
    (h : ([',', ' '].isSuffixOf l) = false) : stripTrailCommaSpace l = l := by
  simp [stripTrailCommaSpace, h]



theorem str_eq_empty_iff (s : String) : s = "" ↔ s.data = [] := by
  cases s
  simp [String.ext_iff]

theorem mk_eq_iff (l : List Char) (r : String) : String.mk l = r ↔ l = r.data := by
  cases r
  simp [String.ext_iff]

theorem locationLabel_eq_spec (city state country : String)
    (hc : ',' ∉ city.data) (hs : ',' ∉ state.data) (hk : ',' ∉ country.data) :
    locationLabel city state country = specLocationLabel city state country := by
  rcases hC : city.data with _ | ⟨c0, C⟩ <;> rcases hS : state.data with _ | ⟨s0, S⟩ <;>
    rcases hK : country.data with _ | ⟨k0, K⟩
  · -- all three empty
    rw [(str_eq_empty_iff city).mpr hC, (str_eq_empty_iff state).mpr hS,
      (str_eq_empty_iff country).mpr hK]
    decide
  · -- only country non-empty
    have hce := (str_eq_empty_iff city).mpr hC
    have hse := (str_eq_empty_iff state).mpr hS
    have hkne : country ≠ "" := fun h => by rw [(str_eq_empty_iff country).mp h] at hK; cases hK
    rw [hK] at hk
    unfold locationLabel specLocationLabel
    rw [hC, hS, hK]
    have e1 : ([] : List Char) ++ [',', ' '] ++ [] ++ [',', ' '] ++ (k0 :: K)
        = ',' :: ' ' :: ',' :: (' ' :: (k0 :: K)) := by simp
    rw [e1, collapse_pair_match, collapse_cons_ne ' ' _ (by decide),
      collapse_comma_free _ hk, stripLead_sep,
      stripTrail_of_not_suffix _ (not_sep_suffix_comma_free _ hk), mk_eq_iff]
    simp [List.filter, hce, hse, hkne, joinCommaSpace, hK]
  · -- only state non-empty
    have hce := (str_eq_empty_iff city).mpr hC
    have hke := (str_eq_empty_iff country).mpr hK
    have hsne : state ≠ "" := fun h => by rw [(str_eq_empty_iff state).mp h] at hS; cases hS
    rw [hS] at hs
    have hs0 : s0 ≠ ',' := fun e => hs (e ▸ List.mem_cons_self s0 S)
    unfold locationLabel specLocationLabel
    rw [hC, hS, hK]
    have e1 : ([] : List Char) ++ [',', ' '] ++ (s0 :: S) ++ [',', ' '] ++ []
        = ',' :: ' ' :: ((s0 :: S) ++ [',', ' ']) := by simp
    rw [e1, collapse_sep _ (by simp [hs0]), collapse_append_comma_free _ _ hs,
      show collapseCommaPairs [',', ' '] = [',', ' '] from rfl, stripLead_sep,
      stripTrail_append_sep, mk_eq_iff]
    simp [List.filter, hce, hke, hsne, joinCommaSpace, hS]
  · -- state and country non-empty
    have hce := (str_eq_empty_iff city).mpr hC
    have hsne : state ≠ "" := fun h => by rw [(str_eq_empty_iff state).mp h] at hS; cases hS
    have hkne : country ≠ "" := fun h => by rw [(str_eq_empty_iff country).mp h] at hK; cases hK
    rw [hS] at hs; rw [hK] at hk
    have hs0 : s0 ≠ ',' := fun e => hs (e ▸ List.mem_cons_self s0 S)
    have hk0 : k0 ≠ ',' := fun e => hk (e ▸ List.mem_cons_self k0 K)
    unfold locationLabel specLocationLabel
    rw [hC, hS, hK]
    have e1 : ([] : List Char) ++ [',', ' '] ++ (s0 :: S) ++ [',', ' '] ++ (k0 :: K)
        = ',' :: ' ' :: ((s0 :: S) ++ (',' :: ' ' :: (k0 :: K))) := by simp
    rw [e1, collapse_sep _ (by simp [hs0]), collapse_append_comma_free _ _ hs,
      collapse_sep _ (by simp [hk0]), collapse_comma_free _ hk, stripLead_sep]
    have e2 : (s0 :: S) ++ ',' :: ' ' :: (k0 :: K)
        = ((s0 :: S) ++ [',']) ++ ' ' :: (k0 :: K) := by simp
    rw [e2, stripTrail_of_not_suffix _ (not_sep_suffix_mid (k0 :: K) (by simp) hk _), mk_eq_iff]
    simp [List.filter, hce, hsne, hkne, joinCommaSpace, String.data_append, hS, hK]
  · -- only city non-empty
    have hse := (str_eq_empty_iff state).mpr hS
    have hke := (str_eq_empty_iff country).mpr hK
    have hcne : city ≠ "" := fun h => by rw [(str_eq_empty_iff city).mp h] at hC; cases hC
    rw [hC] at hc
    have hc0 : c0 ≠ ',' := fun e => hc (e ▸ List.mem_cons_self c0 C)
    unfold locationLabel specLocationLabel
    rw [hC, hS, hK]
    have e1 : (c0 :: C) ++ [',', ' '] ++ [] ++ [',', ' '] ++ ([] : List Char)
        = (c0 :: C) ++ (',' :: ' ' :: ',' :: (' ' :: [])) := by simp
    rw [e1, collapse_append_comma_free _ _ hc, collapse_pair_match,
      show collapseCommaPairs [' '] = [' '] from rfl, List.cons_append,
      stripLead_of_head_ne c0 _ hc0]
    rw [show c0 :: (C ++ ',' :: [' ']) = (c0 :: C) ++ [',', ' '] from by simp,
      stripTrail_append_sep, mk_eq_iff]
    simp [List.filter, hse, hke, hcne, joinCommaSpace, hC]
  · -- city and country non-empty
    have hse := (str_eq_empty_iff state).mpr hS
    have hcne : city ≠ "" := fun h => by rw [(str_eq_empty_iff city).mp h] at hC; cases hC
    have hkne : country ≠ "" := fun h => by rw [(str_eq_empty_iff country).mp h] at hK; cases hK
    rw [hC] at hc; rw [hK] at hk
    have hc0 : c0 ≠ ',' := fun e => hc (e ▸ List.mem_cons_self c0 C)
    unfold locationLabel specLocationLabel
    rw [hC, hS, hK]
    have e1 : (c0 :: C) ++ [',', ' '] ++ [] ++ [',', ' '] ++ (k0 :: K)
        = (c0 :: C) ++ (',' :: ' ' :: ',' :: (' ' :: (k0 :: K))) := by simp
    rw [e1, collapse_append_comma_free _ _ hc, collapse_pair_match,
      collapse_cons_ne ' ' _ (by decide), collapse_comma_free _ hk, List.cons_append,
      stripLead_of_head_ne c0 _ hc0]
    have e2 : c0 :: (C ++ ',' :: ' ' :: (k0 :: K))
        = (c0 :: C ++ [',']) ++ ' ' :: (k0 :: K) := by simp
    rw [e2, stripTrail_of_not_suffix _ (not_sep_suffix_mid (k0 :: K) (by simp) hk _), mk_eq_iff]
    simp [List.filter, hse, hcne, hkne, joinCommaSpace, String.data_append, hC, hK]
  · -- city and state non-empty
    have hke := (str_eq_empty_iff country).mpr hK
    have hcne : city ≠ "" := fun h => by rw [(str_eq_empty_iff city).mp h] at hC; cases hC
    have hsne : state ≠ "" := fun h => by rw [(str_eq_empty_iff state).mp h] at hS; cases hS
    rw [hC] at hc; rw [hS] at hs
    have hc0 : c0 ≠ ',' := fun e => hc (e ▸ List.mem_cons_self c0 C)
    have hs0 : s0 ≠ ',' := fun e => hs (e ▸ List.mem_cons_self s0 S)
    unfold locationLabel specLocationLabel
    rw [hC, hS, hK]
    have e1 : (c0 :: C) ++ [',', ' '] ++ (s0 :: S) ++ [',', ' '] ++ ([] : List Char)
        = (c0 :: C) ++ (',' :: ' ' :: ((s0 :: S) ++ [',', ' '])) := by simp
    rw [e1, collapse_append_comma_free _ _ hc, collapse_sep _ (by simp [hs0]),
      collapse_append_comma_free _ _ hs,
      show collapseCommaPairs [',', ' '] = [',', ' '] from rfl, List.cons_append,
      stripLead_of_head_ne c0 _ hc0]
    rw [show c0 :: (C ++ ',' :: ' ' :: ((s0 :: S) ++ [',', ' ']))
        = (c0 :: C ++ ',' :: ' ' :: (s0 :: S)) ++ [',', ' '] from by simp,
      stripTrail_append_sep, mk_eq_iff]
    simp [List.filter, hke, hcne, hsne, joinCommaSpace, String.data_append, hC, hS]
  · -- all three non-empty
    have hcne : city ≠ "" := fun h => by rw [(str_eq_empty_iff city).mp h] at hC; cases hC
    have hsne : state ≠ "" := fun h => by rw [(str_eq_empty_iff state).mp h] at hS; cases hS
    have hkne : country ≠ "" := fun h => by rw [(str_eq_empty_iff country).mp h] at hK; cases hK
    rw [hC] at hc; rw [hS] at hs; rw [hK] at hk
    have hc0 : c0 ≠ ',' := fun e => hc (e ▸ List.mem_cons_self c0 C)
    have hs0 : s0 ≠ ',' := fun e => hs (e ▸ List.mem_cons_self s0 S)
    have hk0 : k0 ≠ ',' := fun e => hk (e ▸ List.mem_cons_self k0 K)
    unfold locationLabel specLocationLabel
    rw [hC, hS, hK]
    have e1 : (c0 :: C) ++ [',', ' '] ++ (s0 :: S) ++ [',', ' '] ++ (k0 :: K)
        = (c0 :: C) ++ (',' :: ' ' :: ((s0 :: S) ++ (',' :: ' ' :: (k0 :: K)))) := by
      simp
    rw [e1, collapse_append_comma_free _ _ hc,
      collapse_sep _ (by simp [hs0]),
      collapse_append_comma_free _ _ hs,
      collapse_sep _ (by simp [hk0]),
      collapse_comma_free _ hk]
    rw [List.cons_append, stripLead_of_head_ne c0 _ hc0]
    have e2 : c0 :: (C ++ ',' :: ' ' :: ((s0 :: S) ++ ',' :: ' ' :: (k0 :: K)))
        = (c0 :: C ++ ',' :: ' ' :: ((s0 :: S) ++ [','])) ++ ' ' :: (k0 :: K) := by
      simp
    rw [e2, stripTrail_of_not_suffix _ (not_sep_suffix_mid (k0 :: K) (by simp) hk _)]
    rw [mk_eq_iff]
    simp [List.filter, hcne, hsne, hkne, joinCommaSpace, String.data_append, hC, hS, hK]


theorem jsStrOr_of_truthy (a : Option String) (d s : String) (h : a = some s) (hne : s ≠ "") :
    jsStrOr a d = s := by simp [jsStrOr, h, hne]

theorem jsStrOr_of_falsy (a : Option String) (d : String) (h : a = none ∨ a = some "") :
    jsStrOr a d = d := by rcases h with h | h <;> simp [jsStrOr, h]

theorem jsNumOr_of_truthy (a : Option Int) (d n : Int) (h : a = some n) (hne : n ≠ 0) :
    jsNumOr a d = n := by simp [jsNumOr, h, hne]

theorem jsNumOr_of_falsy (a : Option Int) (d : Int) (h : a = none ∨ a = some 0) :
    jsNumOr a d = d := by rcases h with h | h <;> simp [jsNumOr, h]

theorem mapWithIndex_congr (f g : Nat → α → β) (i : Nat) (l : List α)
    (h : ∀ j a, f j a = g j a) : mapWithIndex f i l = mapWithIndex g i l := by
  induction l generalizing i with
  | nil => rfl
  | cons a as ih => simp [mapWithIndex, h, ih]

theorem mapWithIndex_snd (i : Nat) (l : List α) :
    mapWithIndex (fun _ a => a) i l = l := by
  induction l generalizing i with
  | nil => rfl
  | cons a as ih => simp [mapWithIndex, ih]

/-- C3 (amended): for upstream listings whose ids do not parse as numbers (so
the internal-id lookup can never match), Import creates one new
CatalogProperty per listing whose platformId is the bare upstream listing
id and whose isPublished flag is unset. -/
theorem C3_import_creates_bare_platform_ids (customerId : String) (listings : List UpstreamListing) (st : StoreState)
    (hids : ∀ l ∈ listings, jsNumber l.id = none) :
    (importRun customerId listings st).1.props.length = st.props.length + listings.length ∧
    ((importRun customerId listings st).2.map (fun p => p.fields.platformId))
      = listings.map UpstreamListing.id ∧
    ∀ p ∈ (importRun customerId listings st).2,
      p.isPublished = false ∧ p.fields.isPublished = none := by
  induction listings generalizing st with
  | nil => simp [importRun]
  | cons l ls ih =>
    have hl : jsNumber l.id = none := hids l (List.mem_cons_self l ls)
    have hstep : importStep st l = createProperty st (mapListingImport l) := by
      simp [importStep, hl, getProperty]
    obtain ⟨h1, h2, h3⟩ := ih ((createProperty st (mapListingImport l)).1)
      (fun x hx => hids x (List.mem_cons_of_mem l hx))
    refine ⟨?_, ?_, ?_⟩
    · simp only [importRun, hstep]
      rw [h1]
      simp [createProperty]
      omega
    · simp only [importRun, hstep]
      simp only [List.map_cons, h2]
      rfl
    · intro p hp
      simp only [importRun, hstep] at hp
      rcases List.mem_cons.mp hp with h | h
      · subst h
        exact ⟨rfl, rfl⟩
      · exact h3 p h


/-- C2 (amended): when the publish flow finds no property under the combined
platform id but another property owns the derived slug, it updates that
property in place with the freshly mapped published fields plus a slug
suffixed with the last six digits of the current epoch-milliseconds; no
new property is created (store size and next id unchanged). -/
theorem C2_slug_collision_updates_existing (customerId : String) (prop : UpstreamListing) (now : Nat) (st : StoreState)
    (hplat : searchByPlatformId st (customerId ++ "/" ++ prop.id) = [])
    (owner : CatalogProperty)
    (hslug : getPropertyBySlug st (derivedSlug prop) = some owner) :
    publishStep customerId prop now st =
      (updatePropertyFull st owner.id
         { mapListingPublish customerId prop now with
             slug := some (derivedSlug prop ++ "-" ++ last6 now) },
       applyFull owner
         { mapListingPublish customerId prop now with
             slug := some (derivedSlug prop ++ "-" ++ last6 now) }) ∧
    (publishStep customerId prop now st).1.props.length = st.props.length ∧
    (publishStep customerId prop now st).1.nextId = st.nextId := by
  have hmain : publishStep customerId prop now st =
      (updatePropertyFull st owner.id
         { mapListingPublish customerId prop now with
             slug := some (derivedSlug prop ++ "-" ++ last6 now) },
       applyFull owner
         { mapListingPublish customerId prop now with
             slug := some (derivedSlug prop ++ "-" ++ last6 now) }) := by
    simp only [publishStep, hplat, List.head?_nil]
    have hs : getPropertyBySlug st
        (slugify
          (if (mapListingPublish customerId prop now).title = "" then
            (if (mapListingPublish customerId prop now).name = "" then "property"
             else (mapListingPublish customerId prop now).name)
           else (mapListingPublish customerId prop now).title)) = some owner := hslug
    rw [hs]
    rfl
  refine ⟨hmain, ?_, ?_⟩
  · rw [hmain]
    simp [updatePropertyFull]
  · rw [hmain]
    simp [updatePropertyFull]


/-- Witness for C2 at the concrete collision scenario. -/
theorem C2_slug_collision_witness :
    (publishStep "cus_1" exListingC2 1700000123456 exStoreC2).1.props.length
      = exStoreC2.props.length ∧
    (publishStep "cus_1" exListingC2 1700000123456 exStoreC2).1.nextId = exStoreC2.nextId :=
  ⟨(C2_slug_collision_updates_existing "cus_1" exListingC2 1700000123456 exStoreC2 (by decide) exOwnerC2
      (by decide)).2.1,
   (C2_slug_collision_updates_existing "cus_1" exListingC2 1700000123456 exStoreC2 (by decide) exOwnerC2
      (by decide)).2.2⟩

/-- C4 (amended): the tier order of `downloadAndStorePropertyImages` is the
in-memory cache (24-hour freshness) first, then the database tier over the
three platform-id formats (authoritative when the primary image URL is
non-empty, no upstream call), and only then the upstream fetch. -/
theorem C4_tier_order (env : Env) (cid lid : String) (st : SysState) :
    (∀ e, alookup st.imageCache (cid ++ ":" ++ reformatListingId lid) = some e →
        st.now - e.timestamp < hour24 →
        (downloadAndStorePropertyImages env cid lid st).source = ImageSource.memCache ∧
        (downloadAndStorePropertyImages env cid lid st).images = e.images) ∧
    ((∀ e, alookup st.imageCache (cid ++ ":" ++ reformatListingId lid) = some e →
        ¬ st.now - e.timestamp < hour24) →
      ∀ tok, env.token = some tok →
      ∀ p, dbTierHit st.store [cid ++ "/" ++ reformatListingId lid,
            cid ++ ":" ++ reformatListingId lid, reformatListingId lid] = some p →
        (downloadAndStorePropertyImages env cid lid st).source = ImageSource.database ∧
        (downloadAndStorePropertyImages env cid lid st).images = dbImages p) ∧
    ((∀ e, alookup st.imageCache (cid ++ ":" ++ reformatListingId lid) = some e →
        ¬ st.now - e.timestamp < hour24) →
      dbTierHit st.store [cid ++ "/" ++ reformatListingId lid,
          cid ++ ":" ++ reformatListingId lid, reformatListingId lid] = none →
      (downloadAndStorePropertyImages env cid lid st).source = ImageSource.noToken ∨
      (downloadAndStorePropertyImages env cid lid st).source = ImageSource.upstreamImages ∨
      (downloadAndStorePropertyImages env cid lid st).source = ImageSource.upstreamDetails ∨
      (downloadAndStorePropertyImages env cid lid st).source = ImageSource.caught) := by
  refine ⟨?_, ?_, ?_⟩
  · intro e he hfresh
    simp only [downloadAndStorePropertyImages, he, hfresh, if_true]
    exact ⟨by trivial, by trivial⟩
  · intro hmiss tok htok p hdb
    have hred : (match alookup st.imageCache (cid ++ ":" ++ reformatListingId lid) with
        | some e => if st.now - e.timestamp < hour24 then some e.images else none
        | none => none) = none := by
      cases he : alookup st.imageCache (cid ++ ":" ++ reformatListingId lid) with
      | none => rfl
      | some e => simp [hmiss e he]
    simp only [downloadAndStorePropertyImages, hred, htok, hdb]
    exact ⟨by trivial, by trivial⟩
  · intro hmiss hdb
    have hred : (match alookup st.imageCache (cid ++ ":" ++ reformatListingId lid) with
        | some e => if st.now - e.timestamp < hour24 then some e.images else none
        | none => none) = none := by
      cases he : alookup st.imageCache (cid ++ ":" ++ reformatListingId lid) with
      | none => rfl
      | some e => simp [hmiss e he]
    simp only [downloadAndStorePropertyImages, hred, hdb]
    cases env.token with
    | none => simp
    | some tok =>
      simp only
      cases env.upstream.images with
      | ok payload => simp
      | notFound =>
        cases env.upstream.details with
        | ok d => simp
        | httpError s m => simp
      | rateLimited m => simp
      | httpError s m => simp


/-- Witness for C4: a cache-miss, catalog-hit state answers from the catalog. -/
theorem C4_tier_order_witness :
    (downloadAndStorePropertyImages envC4 "c7" "L7" exStC4w).source = ImageSource.database ∧
    (downloadAndStorePropertyImages envC4 "c7" "L7" exStC4w).images = dbImages exDbPropC4 :=
  (C4_tier_order envC4 "c7" "L7" exStC4w).2.1
    (by intro e he; simp [alookup, exStC4w] at he) "token" rfl exDbPropC4 (by decide)

/-- C5 (amended): `uniqueImages` always assigns position = input index
(identical across runs), and its URL output is the run-time-independent
prefix `uniqueUrlBase` followed by the decimal request time for truthy
URLs — and the unchanged URL for falsy ones — so two runs differ exactly
through the appended `t` parameter. -/
theorem C5_normalization_time_dependence :
    (∀ now raws, (uniqueImages now raws).map Image.position = List.range raws.length) ∧
    (∀ now raws i img, raws.get? i = some img → jsStrOr img.url "" ≠ "" →
      ((uniqueImages now raws).get? i).map Image.url
        = some (uniqueUrlBase img i ++ toString now)) ∧
    (∀ now raws i img, raws.get? i = some img → jsStrOr img.url "" = "" →
      ((uniqueImages now raws).get? i).map Image.url = some (jsStrOr img.url "")) := by
  refine ⟨?_, ?_, ?_⟩
  · intro now raws
    rw [uniqueImages, mapWithIndex_map]
    have h := mapWithIndex_congr (fun j a => (uniqueImageStep now j a).position)
      (fun j (_ : RawImage) => j + 0) 0 raws (fun j a => rfl)
    rw [h, mapWithIndex_const_index, List.range_eq_range']
  · intro now raws i img hget hne
    rw [uniqueImages, mapWithIndex_get?, hget, Option.map_some', Option.map_some']
    cases hm : strIncludes (jsStrOr img.url "") "muscache.com/im/" with
    | true =>
      simp [uniqueImageStep, uniqueUrlBase, hne, hm, String.append_assoc]
    | false =>
      simp [uniqueImageStep, uniqueUrlBase, hne, hm, String.append_assoc]
  · intro now raws i img hget hz
    rw [uniqueImages, mapWithIndex_get?, hget, Option.map_some', Option.map_some']
    simp [uniqueImageStep, hz]


/-- Witness for C5 at a concrete raw image and run time 5. -/
theorem C5_normalization_witness :
    ((uniqueImages 5 [exRawC5]).map Image.position = List.range ([exRawC5].length)) ∧
    (((uniqueImages 5 [exRawC5]).get? 0).map Image.url
      = some (uniqueUrlBase exRawC5 0 ++ toString 5)) :=
  ⟨C5_normalization_time_dependence.1 5 [exRawC5], C5_normalization_time_dependence.2.1 5 [exRawC5] 0 exRawC5 rfl (by decide)⟩

/-- C6 (amended): each mapped field uses the upstream value when it is truthy
(non-empty string, non-zero number) and the documented default otherwise —
title/name `Unnamed Property`, description `Beautiful property`, price 99,
bedrooms/bathrooms 1, maxGuests 2, minNights 1, maxNights 30, city/country
`Unknown` — and for comma-free raw segments the location label equals the
comma-joined, empty-segment-collapsed concatenation of city, state,
country. -/
theorem C6_defaulting_rules (l : UpstreamListing) :
    ((∀ s, l.public_name = some s → s ≠ "" → (mapListingCore l).title = s) ∧
     ((l.public_name = none ∨ l.public_name = some "") →
       (∀ s, l.private_name = some s → s ≠ "" → (mapListingCore l).title = s) ∧
       ((l.private_name = none ∨ l.private_name = some "") →
         (mapListingCore l).title = "Unnamed Property"))) ∧
    ((∀ s, l.private_name = some s → s ≠ "" → (mapListingCore l).name = s) ∧
     ((l.private_name = none ∨ l.private_name = some "") →
       (∀ s, l.public_name = some s → s ≠ "" → (mapListingCore l).name = s) ∧
       ((l.public_name = none ∨ l.public_name = some "") →
         (mapListingCore l).name = "Unnamed Property"))) ∧
    ((∀ s, l.description = some s → s ≠ "" → (mapListingCore l).description = s) ∧
     ((l.description = none ∨ l.description = some "") →
       (mapListingCore l).description = "Beautiful property")) ∧
    ((∀ n, l.base_price = some n → n ≠ 0 → (mapListingCore l).price = n) ∧
     ((l.base_price = none ∨ l.base_price = some 0) → (mapListingCore l).price = 99)) ∧
    ((∀ n, l.bedrooms = some n → n ≠ 0 → (mapListingCore l).bedrooms = n) ∧
     ((l.bedrooms = none ∨ l.bedrooms = some 0) → (mapListingCore l).bedrooms = 1)) ∧
    ((∀ n, l.bathrooms = some n → n ≠ 0 → (mapListingCore l).bathrooms = n) ∧
     ((l.bathrooms = none ∨ l.bathrooms = some 0) → (mapListingCore l).bathrooms = 1)) ∧
    ((∀ n, l.max_guests = some n → n ≠ 0 → (mapListingCore l).maxGuests = n) ∧
     ((l.max_guests = none ∨ l.max_guests = some 0) → (mapListingCore l).maxGuests = 2)) ∧
    ((∀ n, l.min_nights = some n → n ≠ 0 → (mapListingCore l).minNights = n) ∧
     ((l.min_nights = none ∨ l.min_nights = some 0) → (mapListingCore l).minNights = 1)) ∧
    ((∀ n, l.max_nights = some n → n ≠ 0 → (mapListingCore l).maxNights = n) ∧
     ((l.max_nights = none ∨ l.max_nights = some 0) → (mapListingCore l).maxNights = 30)) ∧
    ((∀ s, l.city = some s → s ≠ "" → (mapListingCore l).city = s) ∧
     ((l.city = none ∨ l.city = some "") → (mapListingCore l).city = "Unknown")) ∧
    ((∀ s, l.country = some s → s ≠ "" → (mapListingCore l).country = s) ∧
     ((l.country = none ∨ l.country = some "") → (mapListingCore l).country = "Unknown")) ∧
    (',' ∉ (jsStrOr l.city "").data → ',' ∉ (jsStrOr l.state "").data →
      ',' ∉ (jsStrOr l.country "").data →
      (mapListingCore l).location
        = specLocationLabel (jsStrOr l.city "") (jsStrOr l.state "") (jsStrOr l.country "")) := by
  refine ⟨⟨?_, ?_⟩, ⟨?_, ?_⟩, ⟨?_, ?_⟩, ⟨?_, ?_⟩, ⟨?_, ?_⟩, ⟨?_, ?_⟩, ⟨?_, ?_⟩,
    ⟨?_, ?_⟩, ⟨?_, ?_⟩, ⟨?_, ?_⟩, ⟨?_, ?_⟩, ?_⟩
  · exact fun s hs hne => jsStrOr_of_truthy _ _ _ hs hne
  · intro hpub
    constructor
    · intro s hs hne
      show jsStrOr l.public_name (jsStrOr l.private_name "Unnamed Property") = s
      rw [jsStrOr_of_falsy _ _ hpub, jsStrOr_of_truthy _ _ _ hs hne]
    · intro hpriv
      show jsStrOr l.public_name (jsStrOr l.private_name "Unnamed Property") = _
      rw [jsStrOr_of_falsy _ _ hpub, jsStrOr_of_falsy _ _ hpriv]
  · exact fun s hs hne => jsStrOr_of_truthy _ _ _ hs hne
  · intro hpriv
    constructor
    · intro s hs hne
      show jsStrOr l.private_name (jsStrOr l.public_name "Unnamed Property") = s
      rw [jsStrOr_of_falsy _ _ hpriv, jsStrOr_of_truthy _ _ _ hs hne]
    · intro hpub
      show jsStrOr l.private_name (jsStrOr l.public_name "Unnamed Property") = _
      rw [jsStrOr_of_falsy _ _ hpriv, jsStrOr_of_falsy _ _ hpub]
  · exact fun s hs hne => jsStrOr_of_truthy _ _ _ hs hne
  · exact fun h => jsStrOr_of_falsy _ _ h
  · exact fun n hn hne => jsNumOr_of_truthy _ _ _ hn hne
  · exact fun h => jsNumOr_of_falsy _ _ h
  · exact fun n hn hne => jsNumOr_of_truthy _ _ _ hn hne
  · exact fun h => jsNumOr_of_falsy _ _ h
  · exact fun n hn hne => jsNumOr_of_truthy _ _ _ hn hne
  · exact fun h => jsNumOr_of_falsy _ _ h
  · exact fun n hn hne => jsNumOr_of_truthy _ _ _ hn hne
  · exact fun h => jsNumOr_of_falsy _ _ h
  · exact fun n hn hne => jsNumOr_of_truthy _ _ _ hn hne
  · exact fun h => jsNumOr_of_falsy _ _ h
  · exact fun n hn hne => jsNumOr_of_truthy _ _ _ hn hne
  · exact fun h => jsNumOr_of_falsy _ _ h
  · exact fun s hs hne => jsStrOr_of_truthy _ _ _ hs hne
  · exact fun h => jsStrOr_of_falsy _ _ h
  · exact fun s hs hne => jsStrOr_of_truthy _ _ _ hs hne
  · exact fun h => jsStrOr_of_falsy _ _ h
  · exact fun hc hs hk => locationLabel_eq_spec _ _ _ hc hs hk

/-- Witness for C6 at a listing with a present description and city, an
absent price and an empty state. -/
theorem C6_defaulting_witness :
    (mapListingCore exListingC6w).description = "Nice flat" ∧
    (mapListingCore exListingC6w).price = 99 ∧
    (mapListingCore exListingC6w).location = "Lisbon, Portugal" := by
  refine ⟨(C6_defaulting_rules exListingC6w).2.2.1.1 "Nice flat" rfl (by decide),
    (C6_defaulting_rules exListingC6w).2.2.2.1.2 (Or.inl rfl), ?_⟩
  have h := (C6_defaulting_rules exListingC6w).2.2.2.2.2.2.2.2.2.2.2 (by decide) (by decide) (by decide)
  rw [h]
  decide


theorem dbImages_map_url (q : CatalogProperty) :
    (dbImages q).map Image.url = q.fields.imageUrl :: q.fields.additionalImages := by
  rw [dbImages, List.map_cons, mapWithIndex_map]
  have h := mapWithIndex_congr
    (fun j (u : String) =>
      ({ url := u, thumbnail_url := u, position := j + 1, fromDatabase := true } : Image).url)
    (fun j (u : String) => u) 0 q.fields.additionalImages (fun j a => rfl)
  rw [h, mapWithIndex_snd]

theorem dbImages_map_position (q : CatalogProperty) :
    (dbImages q).map Image.position = List.range (q.fields.additionalImages.length + 1) := by
  rw [dbImages, List.map_cons, mapWithIndex_map]
  have h := mapWithIndex_congr
    (fun j (u : String) =>
      ({ url := u, thumbnail_url := u, position := j + 1, fromDatabase := true } : Image).position)
    (fun j (u : String) => j + 1) 0 q.fields.additionalImages (fun j a => rfl)
  rw [h, mapWithIndex_const_index, List.range_eq_range', List.range'_succ 0 _ 1]

/-- C7 (amended): storing a non-empty fetched image list in which every URL is
non-empty and positions equal the input indices updates the matched
property so that `imageUrl` is the (re-normalized) position-0 image,
`additionalImages[i]` the position-(i+1) image, `imagesStoredAt` is
stamped, and the reconstructed image list has contiguous positions 0..n-1
agreeing with the ingested positions. -/
theorem C7_image_ordering (platformId : String) (images : List Image) (st : SysState)
    (p : CatalogProperty) (hp : (searchByPlatformId st.store platformId).head? = some p)
    (i0 : Image) (itail : List Image) (heq : images = i0 :: itail)
    (hurls : ∀ i ∈ images, i.url ≠ "")
    (hpos : images.map Image.position = List.range images.length) :
    ∃ st2, storePropertyImages platformId images st = (st2, true) ∧
      ∀ q ∈ st2.store.props, q.id = p.id →
        q.fields.imageUrl = optimizeUrl i0.url ∧
        q.fields.additionalImages = itail.map (fun i => optimizeUrl i.url) ∧
        q.imagesStoredAt = some st.now ∧
        ((dbImages q).map Image.url) = images.map (fun i => optimizeUrl i.url) ∧
        ((dbImages q).map Image.position) = List.range images.length ∧
        ((dbImages q).map Image.position) = images.map Image.position := by
  subst heq
  refine ⟨{ st with store := setImagesStoredAt (updatePropertyImages st.store p.id
      (optimizeUrl i0.url) (itail.map (fun i => optimizeUrl i.url)) st.now) p.id st.now },
    ?_, ?_⟩
  · simp only [storePropertyImages, List.isEmpty_cons, Bool.false_eq_true, if_false, hp,
      filterMap_all_some _ hurls, List.map_cons]
  · intro q hq hid
    simp only [setImagesStoredAt, updatePropertyImages] at hq
    rw [List.map_map] at hq
    obtain ⟨q0, hq0, rfl⟩ := List.mem_map.mp hq
    by_cases hq0id : q0.id = p.id
    · simp only [Function.comp, hq0id, if_true, if_pos]
      refine ⟨by trivial, by trivial, by trivial, ?_, ?_, ?_⟩
      · rw [dbImages_map_url]
        simp
      · rw [dbImages_map_position]
        simp
      · rw [dbImages_map_position]
        have hpos2 : List.map Image.position (i0 :: itail) = List.range (itail.length + 1) := by
          simpa using hpos
        rw [hpos2]
        simp
    · exfalso
      simp only [Function.comp, hq0id, if_false, if_neg] at hid


/-- Witness for C7 at a one-image ingestion. -/
theorem C7_image_ordering_witness :
    ∃ st2, storePropertyImages "PL1" exImagesC7w exStC7 = (st2, true) ∧
      ∀ q ∈ st2.store.props, q.id = exPropC7.id →
        q.fields.imageUrl = optimizeUrl (processDetailsImage 0 exRawWithUrl).url ∧
        q.fields.additionalImages = ([] : List Image).map (fun i => optimizeUrl i.url) ∧
        q.imagesStoredAt = some exStC7.now ∧
        ((dbImages q).map Image.url) = exImagesC7w.map (fun i => optimizeUrl i.url) ∧
        ((dbImages q).map Image.position) = List.range exImagesC7w.length ∧
        ((dbImages q).map Image.position) = exImagesC7w.map Image.position :=
  C7_image_ordering "PL1" exImagesC7w exStC7 exPropC7 (by decide)
    (processDetailsImage 0 exRawWithUrl) [] rfl (by decide) (by decide)

theorem gate_spacing_untouched (env : Env) (cid lid : String) (pos : Option Nat)
    (st1 : SysState) :
    ((getAfterSpacingGate env cid lid pos st1).2).apiRateLimitCache
      = st1.apiRateLimitCache := by
  unfold getAfterSpacingGate
  repeat' (first | rfl | split | dsimp only)

theorem handler_writes_spacing (env : Env) (cid lid : String) (pos : Option Nat)
    (st : SysState)
    (hnew : alookup st.apiRateLimitCache (cid ++ "/" ++ lid) = none) :
    ((getPropertyImagesHandler env cid lid pos st).2).apiRateLimitCache
      = aupdate st.apiRateLimitCache (cid ++ "/" ++ lid) st.now := by
  unfold getPropertyImagesHandler
  simp only [hnew]
  rw [gate_spacing_untouched]


/-- C8: for a never-before-seen key, a second GET property-images request
within 5 seconds of the first answers HTTP 429 with `retryAfter` equal to
the seconds remaining in the spacing window rounded up, and the requested
position echoed. -/
theorem C8_spacing_rate_limit (env1 env2 : Env) (cid lid : String) (p1 p2 : Option Nat)
    (st : SysState) (t2 : Nat)
    (hnew : alookup st.apiRateLimitCache (cid ++ "/" ++ lid) = none)
    (_hle : st.now ≤ t2) (hwin : t2 - st.now < 5000) :
    (getPropertyImagesHandler env2 cid lid p2
        { (getPropertyImagesHandler env1 cid lid p1 st).2 with now := t2 }).1
      = { status := 429, rateLimited := true
          retryAfter := some ((5000 - (t2 - st.now) + 999) / 1000)
          position := some (p2.getD 0) } := by
  have hwrote := handler_writes_spacing env1 cid lid p1 st hnew
  conv =>
    lhs
    rw [getPropertyImagesHandler]
  have hl : alookup ({ (getPropertyImagesHandler env1 cid lid p1 st).2 with
      now := t2 } : SysState).apiRateLimitCache (cid ++ "/" ++ lid) = some st.now := by
    show alookup ((getPropertyImagesHandler env1 cid lid p1 st).2).apiRateLimitCache
      (cid ++ "/" ++ lid) = some st.now
    rw [hwrote, alookup_aupdate_self]
  simp only [hl, hwin, if_pos]


/-- Witness for C8: requests at times 1000 and 3200 — the second answers 429
with `retryAfter` 3. -/
theorem C8_spacing_rate_limit_witness :
    (getPropertyImagesHandler envNotFound "c" "l" none
        { (getPropertyImagesHandler envNotFound "c" "l" none exStFresh).2 with now := 3200 }).1
      = { status := 429, rateLimited := true, retryAfter := some 3, position := some 0 } :=
  C8_spacing_rate_limit envNotFound envNotFound "c" "l" none none exStFresh 3200 rfl
    (by decide) (by decide)

/-- C9 (amended): the GET property-images route, when its local gates pass,
decides an upstream not-found or rate-limit failure by the catch-block
message heuristics: when the upstream error's body message matches them
(contains `Too Many Attempts`, `rate limit` or `429`, respectively
`No query results for model`, `not found` or `404`) it answers 200 carrying
the position-adjusted stock fallback image and `fallback: true`; when the
message matches neither heuristic it answers a hard 500 with no fallback,
even for an upstream 429. -/
theorem C9_get_route_fallback (env : Env) (cid lid : String) (pos : Option Nat) (st : SysState)
    (hcid : cid ≠ "") (hlid : lid ≠ "")
    (hgate : alookup st.apiRateLimitCache (cid ++ "/" ++ lid) = none)
    (hrl : alookup st.apiRateLimit (cid ++ ":" ++ lid) = none)
    (tok : String) (htok : env.token = some tok)
    (msg : String) (hmsg : msg ≠ "")
    (herr : env.upstream.images = ImagesResp.rateLimited (some msg) ∨
            (env.upstream.images = ImagesResp.notFound ∧
             ∃ s, env.upstream.details = DetailsResp.httpError s (some msg))) :
    ((isRateLimitedMsg msg || isNotFoundMsg msg) = true →
      (getPropertyImagesHandler env cid lid pos st).1.status = 200 ∧
      (getPropertyImagesHandler env cid lid pos st).1.fallback = true ∧
      (getPropertyImagesHandler env cid lid pos st).1.data
        = [getPositionDependentImage (pos.getD 0)]) ∧
    ((isRateLimitedMsg msg || isNotFoundMsg msg) = false →
      (getPropertyImagesHandler env cid lid pos st).1.status = 500 ∧
      (getPropertyImagesHandler env cid lid pos st).1.fallback = false) := by
  have hred : getPropertyImagesHandler env cid lid pos st
      = getAfterSpacingGate env cid lid pos
          { st with apiRateLimitCache :=
              aupdate st.apiRateLimitCache (cid ++ "/" ++ lid) st.now } := by
    rw [getPropertyImagesHandler]
    simp only [hgate]
  have hmsgOr : ∀ s0 : Nat, getUpstreamErrorMessage s0 (some msg) = msg := by
    intro s0
    simp [getUpstreamErrorMessage, jsStrOr, hmsg]
  constructor
  · intro hclass
    rw [hred, getAfterSpacingGate]
    simp only [hcid, hlid, hrl, htok, decide_eq_true_eq, if_neg, Bool.or_self]
    rcases herr with h | ⟨h1, s, h2⟩
    · simp only [h, hmsgOr, hclass, if_pos]
      exact ⟨rfl, rfl, rfl⟩
    · simp only [h1, h2, hmsgOr, hclass, if_pos]
      exact ⟨rfl, rfl, rfl⟩
  · intro hclass
    rw [hred, getAfterSpacingGate]
    simp only [hcid, hlid, hrl, htok, decide_eq_true_eq, if_neg, Bool.or_self]
    rcases herr with h | ⟨h1, s, h2⟩
    · simp only [h, hmsgOr, hclass, Bool.false_eq_true, if_false]
      exact ⟨by trivial, by trivial⟩
    · simp only [h1, h2, hmsgOr, hclass, Bool.false_eq_true, if_false]
      exact ⟨by trivial, by trivial⟩


/-- Witness for C9: a rate-limited upstream whose body message matches the
heuristics gets the stock fallback with a 200; one with an unmatched
message gets a hard 500. -/
theorem C9_get_route_fallback_witness :
    ((getPropertyImagesHandler envRateLimited "c" "l" none exStFresh).1.status = 200 ∧
     (getPropertyImagesHandler envRateLimited "c" "l" none exStFresh).1.fallback = true ∧
     (getPropertyImagesHandler envRateLimited "c" "l" none exStFresh).1.data
       = [getPositionDependentImage 0]) ∧
    (getPropertyImagesHandler envOddRateLimited "c" "l" none exStFresh).1.status = 500 :=
  ⟨(C9_get_route_fallback envRateLimited "c" "l" none exStFresh (by decide) (by decide)
      rfl rfl "token" rfl "Too Many Attempts." (by decide) (Or.inl rfl)).1 (by decide),
   ((C9_get_route_fallback envOddRateLimited "c" "l" none exStFresh (by decide) (by decide)
      rfl rfl "token" rfl "Slow down, please" (by decide) (Or.inl rfl)).2 (by decide)).1⟩

/-- C10: `downloadAndStorePropertyImages` is total at its interface: whenever
its source tag is a failure (`noToken` or `caught`) the image list is
empty, and on each named failure class — missing token, upstream 429,
upstream HTTP error, not-found on both endpoints — the result is the
empty array, never a propagated error or null. -/
theorem C10_download_total_on_failure (env : Env) (cid lid : String) (st : SysState) :
    ((downloadAndStorePropertyImages env cid lid st).source = ImageSource.noToken ∨
     (downloadAndStorePropertyImages env cid lid st).source = ImageSource.caught →
      (downloadAndStorePropertyImages env cid lid st).images = []) ∧
    ((∀ e, alookup st.imageCache (cid ++ ":" ++ reformatListingId lid) = some e →
        ¬ st.now - e.timestamp < hour24) →
      (env.token = none → (downloadAndStorePropertyImages env cid lid st).images = []) ∧
      (dbTierHit st.store [cid ++ "/" ++ reformatListingId lid,
          cid ++ ":" ++ reformatListingId lid, reformatListingId lid] = none →
        ∀ tok, env.token = some tok →
        (∀ m, env.upstream.images = ImagesResp.rateLimited m →
          (downloadAndStorePropertyImages env cid lid st).images = []) ∧
        (∀ s m, env.upstream.images = ImagesResp.httpError s m →
          (downloadAndStorePropertyImages env cid lid st).images = []) ∧
        (env.upstream.images = ImagesResp.notFound →
         ∀ s m, env.upstream.details = DetailsResp.httpError s m →
          (downloadAndStorePropertyImages env cid lid st).images = []))) := by
  constructor
  · unfold downloadAndStorePropertyImages
    repeat' (first | split | dsimp only)
    all_goals (first | (intro _; rfl) | (rintro (h | h) <;> simp at h))
  · intro hmiss
    have hred : (match alookup st.imageCache (cid ++ ":" ++ reformatListingId lid) with
        | some e => if st.now - e.timestamp < hour24 then some e.images else none
        | none => none) = none := by
      cases he : alookup st.imageCache (cid ++ ":" ++ reformatListingId lid) with
      | none => rfl
      | some e => simp [hmiss e he]
    constructor
    · intro htok
      simp only [downloadAndStorePropertyImages, hred, htok]
    · intro hdb tok htok
      refine ⟨?_, ?_, ?_⟩
      · intro m hm
        simp only [downloadAndStorePropertyImages, hred, htok, hdb, hm]
      · intro s m hm
        simp only [downloadAndStorePropertyImages, hred, htok, hdb, hm]
      · intro hm s m hd
        simp only [downloadAndStorePropertyImages, hred, htok, hdb, hm, hd]


/-- Witness for C10: a missing platform token yields the empty image list. -/
theorem C10_download_total_witness :
    (downloadAndStorePropertyImages envNoToken "c" "l" exStFresh).images = [] :=
  ((C10_download_total_on_failure envNoToken "c" "l" exStFresh).2
    (by intro e he; simp [alookup, exStFresh] at he)).1 rfl

/-- Witness for C3 at the two-listing cold-import scenario. -/
theorem C3_cold_import_witness :
    (importRun "cus_1" [exL1, exL2] emptyStore).1.props.length
      = emptyStore.props.length + [exL1, exL2].length ∧
    ((importRun "cus_1" [exL1, exL2] emptyStore).2.map (fun p => p.fields.platformId))
      = [exL1, exL2].map UpstreamListing.id ∧
    ∀ p ∈ (importRun "cus_1" [exL1, exL2] emptyStore).2, p.isPublished = false :=
  ⟨(C3_import_creates_bare_platform_ids "cus_1" [exL1, exL2] emptyStore (by decide)).1,
   (C3_import_creates_bare_platform_ids "cus_1" [exL1, exL2] emptyStore (by decide)).2.1,
   fun p hp => ((C3_import_creates_bare_platform_ids "cus_1" [exL1, exL2] emptyStore (by decide)).2.2 p hp).1⟩


/-- C1 (code bug): the spec requires Import to be idempotent, but the handler
looks existing records up with `storage.getProperty(Number(prop.id))` — an
internal-id lookup keyed by the upstream listing id.  For a customer with
one unchanged upstream listing whose id `abc-123` is not numeric, the
first run creates one CatalogProperty and the second run, failing to find
it, creates a duplicate with the same platform id. -/
theorem C1_import_twice_duplicates :
    (importRun "cus_1" [exListingC1] emptyStore).1.props.length = 1 ∧
    (importRun "cus_1" [exListingC1]
        (importRun "cus_1" [exListingC1] emptyStore).1).1.props.length = 2 ∧
    ((importRun "cus_1" [exListingC1]
        (importRun "cus_1" [exListingC1] emptyStore).1).1.props.map
      (fun p => p.fields.platformId)) = ["abc-123", "abc-123"] := by
  refine ⟨rfl, rfl, rfl⟩

/-- C2 counterexample: publishing a listing whose derived slug `ocean-view`
already belongs to property 7 does not create a new property — the store
still holds exactly one property, property 7, with its fields overwritten
and its slug changed to `ocean-view-123456`. -/
theorem C2_claim_false_at_slug_collision :
    (publishStep "cus_1" exListingC2 1700000123456 exStoreC2).1.props.length = 1 ∧
    ((publishStep "cus_1" exListingC2 1700000123456 exStoreC2).1.props.map
      CatalogProperty.id) = [7] ∧
    (publishStep "cus_1" exListingC2 1700000123456 exStoreC2).1.props.head?
      ≠ some exOwnerC2 ∧
    ((publishStep "cus_1" exListingC2 1700000123456 exStoreC2).1.props.map
      CatalogProperty.slug) = ["ocean-view-123456"] := by
  refine ⟨rfl, rfl, by decide, rfl⟩

/-- C3 counterexample: a cold import of listings `L1`, `L2` for customer
`cus_1` yields platform ids `L1`, `L2`, not the composite `cus_1/L1`,
`cus_1/L2`. -/
theorem C3_claim_false_platform_id :
    ((importRun "cus_1" [exL1, exL2] emptyStore).2.map (fun p => p.fields.platformId))
      = ["L1", "L2"] ∧
    ¬ ((importRun "cus_1" [exL1, exL2] emptyStore).2.map (fun p => p.fields.platformId))
      = ["cus_1/L1", "cus_1/L2"] := by
  refine ⟨rfl, by decide⟩

/-- C4 counterexample: with a fresh in-memory cache entry and a matching
catalog property with a non-empty primary image both present,
`downloadAndStorePropertyImages` answers from the in-memory cache, not
from the catalog. -/
theorem C4_claim_false_cache_before_catalog :
    (downloadAndStorePropertyImages envC4 "c7" "L7" exStC4).source = ImageSource.memCache ∧
    (downloadAndStorePropertyImages envC4 "c7" "L7" exStC4).images = [exCacheImgC4] ∧
    (downloadAndStorePropertyImages envC4 "c7" "L7" exStC4).images ≠ dbImages exDbPropC4 ∧
    dbTierHit exStC4.store ["c7/L7", "c7:L7", "L7"] = some exDbPropC4 := by
  refine ⟨rfl, rfl, by decide, rfl⟩

/-- C5 counterexample: the GET route image normalization (`uniqueImages`)
yields different output for the same raw image list at run times 1 and 2. -/
theorem C5_claim_false_time_dependent :
    uniqueImages 1 [exRawC5] ≠ uniqueImages 2 [exRawC5] := by decide

/-- C6 counterexample: a present upstream value `0` for `base_price` or
`bedrooms` is not used; the defaults 99 and 1 are applied, because the
source tests JS truthiness rather than presence. -/
theorem C6_claim_false_at_zero :
    exListingC6.base_price = some 0 ∧ (mapListingCore exListingC6).price = 99 ∧
    exListingC6.bedrooms = some 0 ∧ (mapListingCore exListingC6).bedrooms = 1 := by
  refine ⟨rfl, rfl, rfl, rfl⟩

/-- C7 counterexample: ingesting a fetched list whose first image has no URL
stores the position-1 image as the primary `imageUrl`; no stored image
corresponds to position 0 of the ingested sequence. -/
theorem C7_claim_false_empty_url :
    (exIngestedC7.map Image.position = [0, 1]) ∧
    ((storePropertyImages "PL1" exIngestedC7 exStC7).1.store.props.map
        (fun p => p.fields.imageUrl)) = ["https://example.com/b.jpg"] ∧
    ((exIngestedC7.find? (fun i => i.position = 0)).map Image.url) = some "" ∧
    ((storePropertyImages "PL1" exIngestedC7 exStC7).1.store.props.map
        (fun p => p.fields.additionalImages)) = [[]] := by
  refine ⟨rfl, rfl, rfl, rfl⟩

/-- C9 counterexample: two concrete requests on which the upstream reports
not-found or rate-limiting yet the endpoint answers a hard error with no
fallback marker.  The POST fetch-property-images endpoint answers 404 with
`success: false` when the upstream reports not-found; and the GET route
itself answers 500 when the upstream rate-limits with a body message
(`Slow down, please`) that matches none of the catch-block heuristics. -/
theorem C9_claim_false_hard_errors :
    ((fetchPropertyImagesHandler envNotFound (some 3) (some "c/l") exStFresh).1.status
      = 404) ∧
    ((fetchPropertyImagesHandler envNotFound (some 3) (some "c/l") exStFresh).1.success
      = false) ∧
    ((fetchPropertyImagesHandler envNotFound (some 3) (some "c/l") exStFresh).1.fallback
      = false) ∧
    ((getPropertyImagesHandler envOddRateLimited "c" "l" none exStFresh).1.status = 500) ∧
    ((getPropertyImagesHandler envOddRateLimited "c" "l" none exStFresh).1.fallback
      = false) := by
  refine ⟨rfl, rfl, rfl, rfl, rfl⟩

end StayDirectly
